import Mathlib

/-!
Shallow embedding of the continuous speech-recognition session driver of
`src/packages/component/src/SpeechServices/TextToSpeech/SpeechSynthesisUtterance.js`
(the `createSpeechRecognitionPonyfill` factory): the `_startOnce`
event-consumption loop, the wrapped audio-chunk reader installed on
`audioConfig.attach`, `averageAmplitude`, the `start()` error catch, and the
factory's credential / WebRTC guard.

Modelling conventions:
- The promise queue (`createPromiseQueue`) is embedded as a finite `List` of
  queued session events; `queue.shift()` is consuming the head.  A run over a
  finite list either *completes* (the loop condition fails or a `break`
  executes, after which the exit epilogue runs) or is *blocked* (the list is
  exhausted while the loop would still `await queue.shift()`).
- `this.dispatchEvent(...)` is embedded as appending to an output trace of
  `Dispatched` events.
- Machine numbers: chunk samples are `Int` (the `Int16Array` view), the
  average amplitude is a `Rat`; the `loop` counter is a `Nat`.
-/

namespace WebSpeech

/-- Text normalization modes of the ponyfill (`textNormalization` option:
`'lexical' | 'itn' | 'maskeditn' | 'display'`). -/
inductive TextNormalization where
  | lexical
  | itn
  | maskedITN
  | display
deriving DecidableEq

/-- One entry of the vendor n-best list (see the JSON sample quoted at the top
of the source file: `Confidence`, `Lexical`, `ITN`, `MaskedITN`, `Display`). -/
structure NBestEntry where
  confidence : Rat
  lexical : String
  itn : String
  maskedITN : String
  display : String
deriving DecidableEq

/-- The vendor `ResultReason` enum, as far as the loop consumes it: the loop
only ever compares against `ResultReason.NoMatch`. -/
inductive ResultReason where
  | recognizedSpeech
  | recognizingSpeech
  | noMatch
  | canceledReason
deriving DecidableEq

/-- A serialized vendor recognition result (`serializeRecognitionResult`
output), restricted to the fields the loop and the normalizer consume:
`reason` and the parsed JSON n-best list. -/
structure VendorResult where
  reason : ResultReason
  nBest : List NBestEntry
deriving DecidableEq

/-- A Web Speech recognition alternative `{transcript, confidence}`. -/
structure WebSpeechAlternative where
  transcript : String
  confidence : Rat
deriving DecidableEq

/-- Selects the text rendering of an n-best entry named by the configured
text-normalization mode. -/
def selectTranscript : TextNormalization → NBestEntry → String
  | .lexical, e => e.lexical
  | .itn, e => e.itn
  | .maskedITN, e => e.maskedITN
  | .display, e => e.display

/-- Modelled from the spec: the module
`cognitiveServiceEventResultToWebSpeechRecognitionResultList.js` is imported
by the session driver but its source is not under `src/`.  Spec §4.3: select
the configured text rendering for each of the top `maxAlternatives` n-best
entries (input order), and if the n-best list is empty yield a single
empty-transcript alternative.  (`isFinal` is omitted here: the loop never
reads it.) -/
def cognitiveServiceEventResultToWebSpeechRecognitionResultList
    (result : VendorResult) (maxAlternatives : Nat)
    (textNormalization : TextNormalization) : List WebSpeechAlternative :=
  match result.nBest with
  | [] => [{ transcript := "", confidence := 0 }]
  | nb => (nb.take maxAlternatives).map fun entry =>
      { transcript := selectTranscript textNormalization entry
        confidence := entry.confidence }

/-- If `pat` matches the front of `cs`, return the characters after the match. -/
def charsAfterMatch : List Char → List Char → Option (List Char)
  | [], cs => some cs
  | _ :: _, [] => none
  | p :: ps, c :: cs => if p = c then charsAfterMatch ps cs else none

/-- Does `pat` match at the front of `cs`? -/
def matchesHere (pat cs : List Char) : Bool :=
  (charsAfterMatch pat cs).isSome

/-- All suffixes of a character list (used to search for a pattern anywhere in
a string, as a regex `test` does). -/
def suffixesOf : List Char → List (List Char)
  | [] => [[]]
  | c :: cs => (c :: cs) :: suffixesOf cs

/-- Does `Permission`, one whitespace character, then `denied` match at the
front of `cs`?  (`Char.isWhitespace` stands in for the regex class `\s`.) -/
def permissionDeniedAt (cs : List Char) : Bool :=
  match charsAfterMatch "Permission".toList cs with
  | none => false
  | some rest =>
    match rest with
    | [] => false
    | c :: rest2 => c.isWhitespace && matchesHere "denied".toList rest2

/-- Embeds `/Permission\sdenied/u.test(s)` (source line 462). -/
def testPermissionDenied (s : String) : Bool :=
  (suffixesOf s.toList).any permissionDeniedAt

/-- Embeds `/1006/u.test(s)` (source line 478): the transport-failure code. -/
def testCode1006 (s : String) : Bool :=
  (suffixesOf s.toList).any (matchesHere "1006".toList)

/-- A queued session event: the tagged union pushed onto the promise queue by
the vendor callbacks, the audio monitor and the rebound `abort`/`stop`
methods.  Payload fields the loop never reads (`offset`, `sessionId`,
`reason` of `canceled`, timestamps) are dropped. -/
inductive QueueEvent where
  | abort
  | audioSourceOff
  | audioSourceReady
  | canceled (errorDetails : String)
  | firstAudibleChunk
  | recognized (result : VendorResult)
  | recognizing (result : VendorResult)
  | sessionStarted
  | sessionStopped
  | speechStartDetected
  | speechEndDetected
  | stop
deriving DecidableEq

/-- The single key of the queued-event object, as reported through the
`cognitiveservices` debugging event (`Object.keys(event).forEach`). -/
def QueueEvent.name : QueueEvent → String
  | .abort => "abort"
  | .audioSourceOff => "audioSourceOff"
  | .audioSourceReady => "audioSourceReady"
  | .canceled _ => "canceled"
  | .firstAudibleChunk => "firstAudibleChunk"
  | .recognized _ => "recognized"
  | .recognizing _ => "recognizing"
  | .sessionStarted => "sessionStarted"
  | .sessionStopped => "sessionStopped"
  | .speechStartDetected => "speechStartDetected"
  | .speechEndDetected => "speechEndDetected"
  | .stop => "stop"

/-- An event dispatched on the public `SpeechRecognition` surface.
`endEvent` stands for the DOM event type `end` (a Lean keyword). -/
inductive Dispatched where
  | cognitiveservices (name : String)
  | start
  | audiostart
  | soundstart
  | speechstart
  | speechend
  | soundend
  | audioend
  | result (results : List (List WebSpeechAlternative))
  | error (code : String)
  | endEvent
deriving DecidableEq

def Dispatched.isStart : Dispatched → Bool
  | .start => true
  | _ => false

def Dispatched.isEnd : Dispatched → Bool
  | .endEvent => true
  | _ => false

def Dispatched.isResult : Dispatched → Bool
  | .result _ => true
  | _ => false

def Dispatched.isError : Dispatched → Bool
  | .error _ => true
  | _ => false

def Dispatched.isCognitiveServices : Dispatched → Bool
  | .cognitiveservices _ => true
  | _ => false

/-- The lifecycle events proper: the dispatched trace without the
`cognitiveservices` debugging passthrough events. -/
def publicLifecycle (out : List Dispatched) : List Dispatched :=
  out.filter fun d => !d.isCognitiveServices

/-- The staged terminal event (`finalEvent` variable of `_startOnce`):
`{type: 'error', error}` or `{type: 'result', results}`. -/
inductive FinalEvent where
  | error (code : String)
  | result (results : List (List WebSpeechAlternative))
deriving DecidableEq

/-- The configuration the loop reads: instance properties `continuous`,
`interimResults`, `maxAlternatives` and the factory options
`textNormalization`, `looseEvents`. -/
structure SessionConfig where
  continuous : Bool
  interimResults : Bool
  maxAlternatives : Nat
  textNormalization : TextNormalization
  looseEvents : Bool
deriving DecidableEq

/-- The mutable state of one `_startOnce` session: the `loop` counter and the
variables `audioStarted`, `soundStarted`, `speechStarted`, `stopping`,
`muted`, `finalEvent`, `finalizedResults`. -/
structure LoopState where
  loopCount : Nat
  audioStarted : Bool
  soundStarted : Bool
  speechStarted : Bool
  stopping : Bool
  muted : Bool
  finalEvent : Option FinalEvent
  finalizedResults : List (List WebSpeechAlternative)
deriving DecidableEq

/-- Session state at loop entry: counter 0, all flags false (unset variables
are falsy), `muted = false` (reset at the top of `_startOnce`), no staged
final event, no finalized results. -/
def initialLoopState : LoopState :=
  { loopCount := 0
    audioStarted := false
    soundStarted := false
    speechStarted := false
    stopping := false
    muted := false
    finalEvent := none
    finalizedResults := [] }

/-- The effect of one loop-body iteration: the updated state, the events it
dispatched (in order), whether it invoked
`recognizer.stopContinuousRecognitionAsync`, and whether it executed
`break`. -/
structure StepResult where
  state : LoopState
  dispatched : List Dispatched
  calledStopContinuous : Bool
  broke : Bool
deriving DecidableEq

/-- The `if (!loop) dispatchEvent('start')` dispatch of the loop body. -/
def startDispatches (st : LoopState) : List Dispatched :=
  if st.loopCount = 0 then [Dispatched.start] else []

/-- The defensive backfill dispatches of the `recognized || recognizing`
branch: emit `audiostart`/`soundstart`/`speechstart` for each flag not yet
set. -/
def backfillDispatches (st : LoopState) : List Dispatched :=
  (if st.audioStarted then [] else [Dispatched.audiostart]) ++
    (if st.soundStarted then [] else [Dispatched.soundstart]) ++
    (if st.speechStarted then [] else [Dispatched.speechstart])

/-- `recognizable = !!result[0].transcript`: the top alternative of the
normalized result has a non-empty transcript.  (`headD` with an
empty-transcript default: the JS expression presupposes a non-empty list,
which holds whenever `maxAlternatives ≥ 1`, its default being 1.) -/
def recognizableResult (cfg : SessionConfig) (r : VendorResult) : Bool :=
  ((cognitiveServiceEventResultToWebSpeechRecognitionResultList r
      cfg.maxAlternatives cfg.textNormalization).headD
    { transcript := "", confidence := 0 }).transcript != ""

/-- The `if (recognized)` part of the `recognized || recognizing` branch
(after the backfill), source lines 554-592. -/
def recognizedStep (cfg : SessionConfig) (st : LoopState) (r : VendorResult) :
    StepResult :=
  let res := cognitiveServiceEventResultToWebSpeechRecognitionResultList r
    cfg.maxAlternatives cfg.textNormalization
  let recognizable := recognizableResult cfg r
  let finalized := if recognizable then st.finalizedResults ++ [res]
    else st.finalizedResults
  let immediate := if cfg.continuous && recognizable then
    [Dispatched.result finalized] else []
  let staged : Option FinalEvent :=
    if cfg.continuous && recognizable then none else some (.result finalized)
  let loose := cfg.looseEvents && staged.isSome && recognizable
  { state := { st with
      audioStarted := true
      soundStarted := true
      speechStarted := true
      finalizedResults := finalized
      finalEvent := if loose then none else staged }
    dispatched := backfillDispatches st ++ immediate ++
      (if loose then [Dispatched.result finalized] else [])
    calledStopContinuous := !cfg.continuous
    broke := false }

/-- The `else if (recognizing)` part of the branch (after the backfill),
source lines 593-606: dispatch an interim cumulative result when
`interimResults` is enabled; never touches `finalizedResults` or
`finalEvent`. -/
def recognizingStep (cfg : SessionConfig) (st : LoopState) (r : VendorResult) :
    StepResult :=
  { state := { st with
      audioStarted := true
      soundStarted := true
      speechStarted := true }
    dispatched := backfillDispatches st ++
      (if cfg.interimResults then
        [Dispatched.result (st.finalizedResults ++
          [cognitiveServiceEventResultToWebSpeechRecognitionResultList r
            cfg.maxAlternatives cfg.textNormalization])]
      else [])
    calledStopContinuous := false
    broke := false }

/-- The `if (errorMessage)` branch for a non-empty, non-permission-denied
`canceled.errorDetails`, source lines 477-495: transport failure code `1006`
synthesizes an `audiostart`/`audioend` pair when audio had not started and
stages the `network` error, anything else stages `unknown`; both `break`. -/
def canceledErrorStep (st : LoopState) (errorDetails : String) : StepResult :=
  if testCode1006 errorDetails then
    { state := { st with finalEvent := some (.error "network") }
      dispatched := if st.audioStarted then []
        else [Dispatched.audiostart, Dispatched.audioend]
      calledStopContinuous := false
      broke := true }
  else
    { state := { st with finalEvent := some (.error "unknown") }
      dispatched := []
      calledStopContinuous := false
      broke := true }

/-- One iteration of the `_startOnce` loop body (source lines 444-608),
without the `loop` counter increment.  Branches appear in the source's check
order; since a queued event populates exactly one case, the `else if` chain
becomes a match on the event. -/
def stepAux (cfg : SessionConfig) (st : LoopState) (e : QueueEvent) :
    StepResult :=
  let debug := [Dispatched.cognitiveservices e.name]
  match e with
  | .canceled errorDetails =>
    if testPermissionDenied errorDetails then
      { state := { st with finalEvent := some (.error "not-allowed") }
        dispatched := debug
        calledStopContinuous := false
        broke := true }
    else if errorDetails = "" then
      { state := st
        dispatched := debug ++ startDispatches st
        calledStopContinuous := false
        broke := false }
    else
      let r := canceledErrorStep st errorDetails
      { r with dispatched := debug ++ startDispatches st ++ r.dispatched }
  | .abort =>
    { state := { st with finalEvent := some (.error "aborted"), stopping := true }
      dispatched := debug ++ startDispatches st
      calledStopContinuous := true
      broke := false }
  | .stop =>
    { state := { st with muted := true, stopping := true }
      dispatched := debug ++ startDispatches st
      calledStopContinuous := false
      broke := false }
  | .audioSourceReady =>
    { state := { st with audioStarted := true }
      dispatched := debug ++ startDispatches st ++ [Dispatched.audiostart]
      calledStopContinuous := false
      broke := false }
  | .firstAudibleChunk =>
    { state := { st with soundStarted := true }
      dispatched := debug ++ startDispatches st ++ [Dispatched.soundstart]
      calledStopContinuous := false
      broke := false }
  | .audioSourceOff =>
    { state := { st with
        stopping := true
        audioStarted := false
        soundStarted := false
        speechStarted := false }
      dispatched := debug ++ startDispatches st ++
        (if st.speechStarted then [Dispatched.speechend] else []) ++
        (if st.soundStarted then [Dispatched.soundend] else []) ++
        (if st.audioStarted then [Dispatched.audioend] else [])
      calledStopContinuous := false
      broke := true }
  | .recognized r =>
    if r.reason = ResultReason.noMatch then
      { state := { st with finalEvent := some (.error "no-speech") }
        dispatched := debug ++ startDispatches st
        calledStopContinuous := false
        broke := false }
    else
      let k := recognizedStep cfg st r
      { k with dispatched := debug ++ startDispatches st ++ k.dispatched }
  | .recognizing r =>
    let k := recognizingStep cfg st r
    { k with dispatched := debug ++ startDispatches st ++ k.dispatched }
  | .sessionStarted =>
    { state := st
      dispatched := debug ++ startDispatches st
      calledStopContinuous := false
      broke := false }
  | .sessionStopped =>
    { state := st
      dispatched := debug ++ startDispatches st
      calledStopContinuous := false
      broke := false }
  | .speechStartDetected =>
    { state := st
      dispatched := debug ++ startDispatches st
      calledStopContinuous := false
      broke := false }
  | .speechEndDetected =>
    { state := st
      dispatched := debug ++ startDispatches st
      calledStopContinuous := false
      broke := false }

/-- One full loop iteration: the body plus the `loop++` counter update. -/
def step (cfg : SessionConfig) (st : LoopState) (e : QueueEvent) : StepResult :=
  let r := stepAux cfg st e
  { r with state := { r.state with loopCount := st.loopCount + 1 } }

/-- The consumption of a staged final event at loop exit (source lines
624-637): an empty-result `result` is promoted to a `no-speech` error; then
the staged event is dispatched as an error or a result. -/
def finalEventDispatch : Option FinalEvent → List Dispatched
  | none => []
  | some fe =>
    match (match fe with
      | .result [] => FinalEvent.error "no-speech"
      | other => other) with
    | .error code => [Dispatched.error code]
    | .result rs => [Dispatched.result rs]

/-- The loop-exit epilogue (source lines 610-641): `speechend`/`soundend`/
`audioend` for the flags still set, the staged final event, and
unconditionally `end` last. -/
def epilogue (st : LoopState) : List Dispatched :=
  (if st.speechStarted then [Dispatched.speechend] else []) ++
    (if st.soundStarted then [Dispatched.soundend] else []) ++
    (if st.audioStarted then [Dispatched.audioend] else []) ++
    finalEventDispatch st.finalEvent ++
    [Dispatched.endEvent]

/-- The outcome of draining a finite queue through the loop: final state,
dispatched trace, whether the loop reached its exit (`completed`; `false`
means the queue was exhausted while the loop was still awaiting
`queue.shift()`), the consumed prefix of the queue, and how many times
`stopContinuousRecognitionAsync` was invoked. -/
structure RunResult where
  state : LoopState
  out : List Dispatched
  completed : Bool
  consumed : List QueueEvent
  stopCalls : Nat
deriving DecidableEq

/-- The `for (let loop = 0; !stopping || audioStarted; loop++)` loop over a
finite queue: the condition is checked before each `queue.shift()`; a `break`
ends the loop at once. -/
def runLoop (cfg : SessionConfig) : LoopState → List QueueEvent → RunResult
  | st, [] =>
    { state := st
      out := []
      completed := st.stopping && !st.audioStarted
      consumed := []
      stopCalls := 0 }
  | st, e :: rest =>
    if st.stopping && !st.audioStarted then
      { state := st, out := [], completed := true, consumed := [], stopCalls := 0 }
    else
      let r := step cfg st e
      if r.broke then
        { state := r.state
          out := r.dispatched
          completed := true
          consumed := [e]
          stopCalls := if r.calledStopContinuous then 1 else 0 }
      else
        let k := runLoop cfg r.state rest
        { state := k.state
          out := r.dispatched ++ k.out
          completed := k.completed
          consumed := e :: k.consumed
          stopCalls := (if r.calledStopContinuous then 1 else 0) + k.stopCalls }

/-- One `_startOnce` session over a finite queue: run the loop from the
initial state and, if it exited, append the exit epilogue to the trace. -/
def startOnce (cfg : SessionConfig) (events : List QueueEvent) : RunResult :=
  let r := runLoop cfg initialLoopState events
  if r.completed then { r with out := r.out ++ epilogue r.state } else r

/-- An audio chunk as produced by the audio-source reader:
`{buffer, isEnd, timeReceived}`.  The buffer is the chunk's 16-bit sample view
(the `Int16Array` over the `ArrayBuffer`). -/
structure AudioChunk where
  buffer : List Int
  isEnd : Bool
  timeReceived : Nat
deriving DecidableEq

/-- Embeds `averageAmplitude` (source lines 199-203): the mean of the absolute
16-bit sample values.  For an empty buffer the JS value is `NaN` and every
`NaN > 150` comparison is false; here the `Rat` division yields `0`, which
compares below `150` the same way. -/
def averageAmplitude (samples : List Int) : Rat :=
  ((samples.map Int.natAbs).sum : Rat) / (samples.length : Rat)

/-- The closure state the wrapped reader consults: the shared `muted` flag and
whether the one-shot `onAudibleChunk` callback is still installed
(non-null). -/
structure AudioReadState where
  muted : Bool
  onAudibleChunkArmed : Bool
deriving DecidableEq

/-- The outcome of one wrapped `read()`: the updated closure state, the chunk
returned to the caller, and the session events the callback pushed onto the
queue. -/
structure WrappedReadResult where
  state : AudioReadState
  chunk : AudioChunk
  queued : List QueueEvent
deriving DecidableEq

/-- Embeds the chunk improviser installed on `audioConfig.attach` (source
lines 258-283): first inspect the chunk's average amplitude and fire the
one-shot `onAudibleChunk` callback (which pushes `firstAudibleChunk` and
disarms itself) when it exceeds 150, then — if `muted` — replace the chunk by
a zero-length, end-marked one. -/
def wrappedRead (st : AudioReadState) (chunk : AudioChunk) (now : Nat) :
    WrappedReadResult :=
  let audible := decide (150 < averageAmplitude chunk.buffer)
  let fired := audible && st.onAudibleChunkArmed
  { state := { st with onAudibleChunkArmed := st.onAudibleChunkArmed && !audible }
    chunk := if st.muted then { buffer := [], isEnd := true, timeReceived := now }
      else chunk
    queued := if fired then [QueueEvent.firstAudibleChunk] else [] }

/-- The result of the `_startOnce()` promise: either the session ran (its
`RunResult`) or the startup/loop sequence failed with a rejection carrying a
message.  A failure anywhere inside the `async` body surfaces as a rejected
promise. -/
def startOnceResult (startupFailure : Option String) (cfg : SessionConfig)
    (events : List QueueEvent) : Except String RunResult :=
  match startupFailure with
  | some message => .error message
  | none => .ok (startOnce cfg events)

/-- Embeds `SpeechRecognition.start()` (source lines 347-351):
`this._startOnce().catch(err => this.dispatchEvent(new ErrorEvent('error',
...)))` — the events the caller observes: a rejection is converted into one
dispatched `error` event; it is never rethrown (this function is total). -/
def startMethod (startupFailure : Option String) (cfg : SessionConfig)
    (events : List QueueEvent) : List Dispatched :=
  match startOnceResult startupFailure cfg events with
  | .error message => [Dispatched.error message]
  | .ok r => r.out

/-- The environment facts the factory guard reads: whether
`authorizationToken` / `subscriptionKey` options were provided and whether
`window.navigator.mediaDevices.getUserMedia` exists; plus whether the
deprecated `looseEvent` option was passed (it only triggers a rename
warning). -/
structure PonyfillOptions where
  hasAuthorizationToken : Bool
  hasSubscriptionKey : Bool
  hasGetUserMedia : Bool
  looseEventDefined : Bool
deriving DecidableEq

/-- Which members the returned ponyfill object exposes. -/
structure PonyfillExports where
  hasSpeechGrammarList : Bool
  hasSpeechRecognition : Bool
  hasSpeechRecognitionEvent : Bool
deriving DecidableEq

/-- Embeds the guard of `createSpeechRecognitionPonyfill` (source lines
237-251) and its return value (lines 663-667): missing credentials or missing
WebRTC support log one `console.warn` and return `{}`; otherwise the full
export object is returned (with the `looseEvent` rename warning when that
option was passed).  `Except` records that the function returns normally
rather than throwing: no path produces `.error`. -/
def createSpeechRecognitionPonyfill (options : PonyfillOptions) :
    Except String (PonyfillExports × List String) :=
  if !options.hasAuthorizationToken && !options.hasSubscriptionKey then
    .ok
      ({ hasSpeechGrammarList := false
         hasSpeechRecognition := false
         hasSpeechRecognitionEvent := false },
       ["web-speech-cognitive-services: Either authorizationToken or subscriptionKey must be specified"])
  else if !options.hasGetUserMedia then
    .ok
      ({ hasSpeechGrammarList := false
         hasSpeechRecognition := false
         hasSpeechRecognitionEvent := false },
       ["web-speech-cognitive-services: This browser does not support WebRTC and it will not work with Cognitive Services Speech Services."])
  else
    .ok
      ({ hasSpeechGrammarList := true
         hasSpeechRecognition := true
         hasSpeechRecognitionEvent := true },
       if options.looseEventDefined then
         ["web-speech-cognitive-services: The option \"looseEvent\" should be named as \"looseEvents\"."]
       else [])


theorem step_state_loopCount (cfg : SessionConfig) (st : LoopState) (e : QueueEvent) :
    (step cfg st e).state.loopCount = st.loopCount + 1 := rfl

theorem step_dispatched (cfg : SessionConfig) (st : LoopState) (e : QueueEvent) :
    (step cfg st e).dispatched = (stepAux cfg st e).dispatched := rfl

theorem step_broke (cfg : SessionConfig) (st : LoopState) (e : QueueEvent) :
    (step cfg st e).broke = (stepAux cfg st e).broke := rfl

theorem endEvent_not_mem_stepAux (cfg : SessionConfig) (st : LoopState) (e : QueueEvent) :
    Dispatched.endEvent ∉ (stepAux cfg st e).dispatched := by
  cases e <;>
    simp only [stepAux, recognizedStep, recognizingStep, canceledErrorStep,
      startDispatches, backfillDispatches] <;>
    (repeat' split) <;>
    simp_all

theorem countP_isStart_stepAux (cfg : SessionConfig) (st : LoopState) (e : QueueEvent) :
    (stepAux cfg st e).dispatched.countP Dispatched.isStart ≤
      (if st.loopCount = 0 then 1 else 0) := by
  cases e <;>
    simp only [stepAux, recognizedStep, recognizingStep, canceledErrorStep,
      startDispatches, backfillDispatches] <;>
    (repeat' split) <;>
    simp_all [List.countP_append, List.countP_cons, Dispatched.isStart]

theorem endEvent_not_mem_runLoop (cfg : SessionConfig) (evs : List QueueEvent) :
    ∀ st, Dispatched.endEvent ∉ (runLoop cfg st evs).out := by
  induction evs with
  | nil => intro st; simp [runLoop]
  | cons e rest ih =>
    intro st
    simp only [runLoop]
    split
    · simp
    · split
      · simpa [step_dispatched] using endEvent_not_mem_stepAux cfg st e
      · simp only [List.mem_append, not_or]
        exact ⟨by simpa [step_dispatched] using endEvent_not_mem_stepAux cfg st e, ih _⟩

theorem countP_isStart_runLoop (cfg : SessionConfig) (evs : List QueueEvent) :
    ∀ st, (runLoop cfg st evs).out.countP Dispatched.isStart ≤
      (if st.loopCount = 0 then 1 else 0) := by
  induction evs with
  | nil => intro st; simp [runLoop]
  | cons e rest ih =>
    intro st
    simp only [runLoop]
    split
    · simp
    · split
      · simpa [step_dispatched] using countP_isStart_stepAux cfg st e
      · have h1 := countP_isStart_stepAux cfg st e
        have h2 := ih (step cfg st e).state
        rw [step_state_loopCount] at h2
        simp only [Nat.add_one_ne_zero, if_false] at h2
        simp only [List.countP_append, step_dispatched]
        omega

theorem countP_isEnd_of_not_mem {l : List Dispatched}
    (h : Dispatched.endEvent ∉ l) : l.countP Dispatched.isEnd = 0 := by
  rw [List.countP_eq_zero]
  intro a ha
  cases a <;> simp_all [Dispatched.isEnd]

theorem getLast?_append_some {l₂ : List Dispatched} (l₁ : List Dispatched)
    {a : Dispatched} (h : l₂.getLast? = some a) :
    (l₁ ++ l₂).getLast? = some a := by
  have hne : l₂ ≠ [] := by intro hn; subst hn; simp at h
  rw [List.getLast?_append_of_ne_nil l₁ hne, h]

theorem countP_isEnd_epilogue (st : LoopState) :
    (epilogue st).countP Dispatched.isEnd = 1 := by
  rcases hfe : st.finalEvent with _ | fe
  · simp [epilogue, finalEventDispatch, hfe, List.countP_append, List.countP_cons,
      Dispatched.isEnd] <;> (repeat' split) <;> simp_all [Dispatched.isEnd]
  · cases fe with
    | error c =>
      simp [epilogue, finalEventDispatch, hfe, List.countP_append, List.countP_cons,
        Dispatched.isEnd] <;> (repeat' split) <;> simp_all [Dispatched.isEnd]
    | result rs =>
      cases rs <;>
        simp [epilogue, finalEventDispatch, hfe, List.countP_append, List.countP_cons,
          Dispatched.isEnd] <;> (repeat' split) <;> simp_all [Dispatched.isEnd]

theorem countP_isStart_epilogue (st : LoopState) :
    (epilogue st).countP Dispatched.isStart = 0 := by
  rcases hfe : st.finalEvent with _ | fe
  · simp [epilogue, finalEventDispatch, hfe, List.countP_append, List.countP_cons,
      Dispatched.isStart]
  · cases fe with
    | error c =>
      simp [epilogue, finalEventDispatch, hfe, List.countP_append, List.countP_cons,
        Dispatched.isStart]
    | result rs =>
      cases rs <;>
        simp [epilogue, finalEventDispatch, hfe, List.countP_append, List.countP_cons,
          Dispatched.isStart]

theorem epilogue_getLast? (st : LoopState) :
    (epilogue st).getLast? = some Dispatched.endEvent := by
  simp only [epilogue]
  repeat' apply getLast?_append_some
  rfl

/-- C1: for every finite sequence of queued session events on which the
`_startOnce` loop terminates, the dispatched event sequence contains at most
one `start`, exactly one `end`, and the `end` event is the last one
dispatched. -/
theorem c1_at_most_one_start_exactly_one_end_last (cfg : SessionConfig)
    (events : List QueueEvent) (h : (startOnce cfg events).completed = true) :
    (startOnce cfg events).out.countP Dispatched.isStart ≤ 1 ∧
    (startOnce cfg events).out.countP Dispatched.isEnd = 1 ∧
    (startOnce cfg events).out.getLast? = some Dispatched.endEvent := by
  by_cases hc : (runLoop cfg initialLoopState events).completed
  · have hout : (startOnce cfg events).out =
        (runLoop cfg initialLoopState events).out ++
          epilogue (runLoop cfg initialLoopState events).state := by
      simp [startOnce, hc]
    refine ⟨?_, ?_, ?_⟩
    · rw [hout, List.countP_append]
      have h1 := countP_isStart_runLoop cfg events initialLoopState
      rw [show initialLoopState.loopCount = 0 from rfl, if_pos rfl] at h1
      have h2 := countP_isStart_epilogue (runLoop cfg initialLoopState events).state
      omega
    · rw [hout, List.countP_append]
      rw [countP_isEnd_of_not_mem (endEvent_not_mem_runLoop cfg events initialLoopState)]
      rw [countP_isEnd_epilogue]
    · rw [hout]
      exact getLast?_append_some _ (epilogue_getLast? _)
  · exfalso
    have : (startOnce cfg events).completed = (runLoop cfg initialLoopState events).completed := by
      simp [startOnce, hc]
    rw [this] at h
    exact hc h

/-- C1 witness at a concrete terminating input. -/
theorem c1_at_most_one_start_exactly_one_end_last_witness :
    (startOnce ⟨false, false, 1, .display, false⟩ [.canceled "Permission denied"]).completed = true ∧
    ((startOnce ⟨false, false, 1, .display, false⟩ [.canceled "Permission denied"]).out.countP Dispatched.isStart ≤ 1 ∧
     (startOnce ⟨false, false, 1, .display, false⟩ [.canceled "Permission denied"]).out.countP Dispatched.isEnd = 1 ∧
     (startOnce ⟨false, false, 1, .display, false⟩ [.canceled "Permission denied"]).out.getLast? = some Dispatched.endEvent) :=
  ⟨by decide, c1_at_most_one_start_exactly_one_end_last _ _ (by decide)⟩


def cfgDefault : SessionConfig :=
  { continuous := false
    interimResults := false
    maxAlternatives := 1
    textNormalization := .display
    looseEvents := false }

def displayEntry (text : String) : NBestEntry :=
  { confidence := 1, lexical := text, itn := text, maskedITN := text, display := text }

def helloResult : VendorResult :=
  { reason := .recognizedSpeech, nBest := [displayEntry "hello"] }

def worldResult : VendorResult :=
  { reason := .recognizedSpeech, nBest := [displayEntry "world"] }

def emptyNBestResult : VendorResult :=
  { reason := .recognizedSpeech, nBest := [] }

/-- C3: if the queue consists of exactly one `canceled` event whose
`errorDetails` matches the permission-denied pattern, the session dispatches
exactly the lifecycle sequence `error` (code `not-allowed`) followed by `end`
(the `cognitiveservices` debug passthrough excluded), and never dispatches a
`start` event. -/
theorem c3_permission_denied (cfg : SessionConfig) (errorDetails : String)
    (hp : testPermissionDenied errorDetails = true) :
    publicLifecycle (startOnce cfg [QueueEvent.canceled errorDetails]).out =
      [Dispatched.error "not-allowed", Dispatched.endEvent] ∧
    Dispatched.start ∉ (startOnce cfg [QueueEvent.canceled errorDetails]).out := by
  constructor <;>
    simp [startOnce, runLoop, step, stepAux, hp, epilogue, finalEventDispatch,
      publicLifecycle, initialLoopState, Dispatched.isCognitiveServices, QueueEvent.name]

/-- C3 witness at a longer SDK-style error text containing the pattern. -/
theorem c3_permission_denied_witness :
    testPermissionDenied
      "Unable to contact server. StatusCode: 1000. Permission denied by the user agent." = true ∧
    (publicLifecycle (startOnce cfgDefault [QueueEvent.canceled
        "Unable to contact server. StatusCode: 1000. Permission denied by the user agent."]).out =
      [Dispatched.error "not-allowed", Dispatched.endEvent] ∧
    Dispatched.start ∉ (startOnce cfgDefault [QueueEvent.canceled
        "Unable to contact server. StatusCode: 1000. Permission denied by the user agent."]).out) :=
  ⟨by decide,
    c3_permission_denied cfgDefault
      "Unable to contact server. StatusCode: 1000. Permission denied by the user agent."
      (by decide)⟩

theorem finalized_le_step (cfg : SessionConfig) (st : LoopState) (e : QueueEvent) :
    st.finalizedResults.length ≤ (step cfg st e).state.finalizedResults.length := by
  cases e <;>
    simp only [step, stepAux, recognizedStep, recognizingStep, canceledErrorStep] <;>
    (repeat' split) <;> simp_all

theorem finalized_le_runLoop (cfg : SessionConfig) (evs : List QueueEvent) :
    ∀ st : LoopState,
      st.finalizedResults.length ≤ (runLoop cfg st evs).state.finalizedResults.length := by
  induction evs with
  | nil => intro st; simp [runLoop]
  | cons e rest ih =>
    intro st
    simp only [runLoop]
    split
    · simp
    · split
      · exact finalized_le_step cfg st e
      · exact le_trans (finalized_le_step cfg st e) (ih (step cfg st e).state)

/-- C6: when `continuous` is true, a `recognized` event whose normalized top
transcript is non-empty immediately dispatches exactly one `result` event
whose payload is the cumulative `finalizedResults` with the new result
appended, the state records that same cumulative list, and the length of
`finalizedResults` never decreases over any run of the loop — so the payload
lengths of successive such dispatches are non-decreasing. -/
theorem c6_continuous_cumulative (cfg : SessionConfig) (st : LoopState) (r : VendorResult)
    (hcont : cfg.continuous = true) (hrec : recognizableResult cfg r = true)
    (hnm : r.reason ≠ ResultReason.noMatch) :
    (step cfg st (QueueEvent.recognized r)).dispatched.countP Dispatched.isResult = 1 ∧
    Dispatched.result (st.finalizedResults ++
        [cognitiveServiceEventResultToWebSpeechRecognitionResultList r cfg.maxAlternatives
          cfg.textNormalization]) ∈ (step cfg st (QueueEvent.recognized r)).dispatched ∧
    (step cfg st (QueueEvent.recognized r)).state.finalizedResults =
      st.finalizedResults ++ [cognitiveServiceEventResultToWebSpeechRecognitionResultList r
        cfg.maxAlternatives cfg.textNormalization] ∧
    ∀ (st' : LoopState) (evs : List QueueEvent),
      st'.finalizedResults.length ≤ (runLoop cfg st' evs).state.finalizedResults.length := by
  refine ⟨?_, ?_, ?_, fun st' evs => finalized_le_runLoop cfg evs st'⟩
  · simp [step, stepAux, recognizedStep, hnm, hcont, hrec, startDispatches,
      backfillDispatches, List.countP_append, List.countP_cons, Dispatched.isResult]
    all_goals ((repeat' split) <;> simp [Dispatched.isResult])
  · simp [step, stepAux, recognizedStep, hnm, hcont, hrec]
  · simp [step, stepAux, recognizedStep, hnm, hcont, hrec]

/-- C6 witness at a concrete continuous-mode input. -/
theorem c6_continuous_cumulative_witness :
    ({ cfgDefault with continuous := true } : SessionConfig).continuous = true ∧
    recognizableResult { cfgDefault with continuous := true } helloResult = true ∧
    helloResult.reason ≠ ResultReason.noMatch ∧
    (step { cfgDefault with continuous := true } initialLoopState
        (QueueEvent.recognized helloResult)).dispatched.countP Dispatched.isResult = 1 :=
  ⟨by decide, by decide, by decide,
    (c6_continuous_cumulative { cfgDefault with continuous := true } initialLoopState helloResult
      (by decide) (by decide) (by decide)).1⟩

def cfgInterim : SessionConfig := { cfgDefault with interimResults := true }

/-- C5 counterexample: with `continuous = false` and `interimResults = true`,
a `recognizing` event dequeued after the first recognizable `recognized`
event (which did invoke `stopContinuousRecognitionAsync`) still causes a
`result` event to be dispatched. -/
theorem c5_counterexample :
    cfgInterim.continuous = false ∧
    recognizableResult cfgInterim helloResult = true ∧
    (step cfgInterim initialLoopState (QueueEvent.recognized helloResult)).calledStopContinuous = true ∧
    (step cfgInterim (step cfgInterim initialLoopState (QueueEvent.recognized helloResult)).state
        (QueueEvent.recognizing worldResult)).dispatched.countP Dispatched.isResult = 1 := by
  decide

/-- C5 (amended): when `continuous` is false, every `recognized` event whose
reason is not `NoMatch` (in particular the first one with a non-empty top
transcript) invokes `stopContinuousRecognitionAsync`; and provided interim
results are disabled, no `recognizing` event ever causes a `result`
dispatch. -/
theorem c5_amended (cfg : SessionConfig) (st : LoopState) (hcont : cfg.continuous = false) :
    (∀ r : VendorResult, r.reason ≠ ResultReason.noMatch →
      (step cfg st (QueueEvent.recognized r)).calledStopContinuous = true) ∧
    (cfg.interimResults = false → ∀ r : VendorResult,
      (step cfg st (QueueEvent.recognizing r)).dispatched.countP Dispatched.isResult = 0) := by
  constructor
  · intro r hr
    simp [step, stepAux, recognizedStep, hr, hcont]
  · intro hi r
    simp [step, stepAux, recognizingStep, hi, backfillDispatches, startDispatches,
      List.countP_append, List.countP_cons, Dispatched.isResult]
    all_goals ((repeat' split) <;> simp [Dispatched.isResult])

/-- C5 (amended) witness. -/
theorem c5_amended_witness :
    cfgDefault.continuous = false ∧
    (step cfgDefault initialLoopState (QueueEvent.recognized helloResult)).calledStopContinuous = true ∧
    (step cfgDefault initialLoopState (QueueEvent.recognizing worldResult)).dispatched.countP
      Dispatched.isResult = 0 :=
  ⟨by decide,
    (c5_amended cfgDefault initialLoopState (by decide)).1 helloResult (by decide),
    (c5_amended cfgDefault initialLoopState (by decide)).2 (by decide) worldResult⟩

/-- C7: for every read performed while the `muted` flag is set, the wrapped
audio reader returns a chunk with a zero-length buffer and `isEnd = true`,
regardless of the chunk the underlying reader produced. -/
theorem c7_muted_read (st : AudioReadState) (chunk : AudioChunk) (now : Nat)
    (h : st.muted = true) :
    (wrappedRead st chunk now).chunk =
      { buffer := [], isEnd := true, timeReceived := now } := by
  simp [wrappedRead, h]

/-- C7 witness at a concrete muted read. -/
theorem c7_muted_read_witness :
    (⟨true, true⟩ : AudioReadState).muted = true ∧
    (wrappedRead ⟨true, true⟩ ⟨[1000], false, 5⟩ 7).chunk = ⟨[], true, 7⟩ :=
  ⟨rfl, c7_muted_read ⟨true, true⟩ ⟨[1000], false, 5⟩ 7 rfl⟩

/-- C9: the amplitude inspection happens before the muted-flag substitution:
a chunk read while muted whose average absolute amplitude exceeds 150, with
the one-shot callback still armed, fires the callback (enqueuing
`firstAudibleChunk`, which the loop answers with a `soundstart` dispatch) and
disarms it, even though the caller receives only the zero-length end-marked
replacement chunk. -/
theorem c9_amplitude_before_mute (st : AudioReadState) (chunk : AudioChunk) (now : Nat)
    (hm : st.muted = true) (ha : st.onAudibleChunkArmed = true)
    (hl : 150 < averageAmplitude chunk.buffer) :
    (wrappedRead st chunk now).queued = [QueueEvent.firstAudibleChunk] ∧
    (wrappedRead st chunk now).chunk = { buffer := [], isEnd := true, timeReceived := now } ∧
    (wrappedRead st chunk now).state.onAudibleChunkArmed = false ∧
    ∀ (cfg : SessionConfig) (ls : LoopState),
      Dispatched.soundstart ∈ (step cfg ls QueueEvent.firstAudibleChunk).dispatched := by
  refine ⟨by simp [wrappedRead, hm, ha, hl], by simp [wrappedRead, hm], by simp [wrappedRead, ha, hl], ?_⟩
  intro cfg ls
  simp [step, stepAux, startDispatches]

theorem loudExampleChunk : 150 < averageAmplitude [200, 200] := by
  norm_num [averageAmplitude]

/-- C9 witness at a concrete loud muted read. -/
theorem c9_amplitude_before_mute_witness :
    (⟨true, true⟩ : AudioReadState).muted = true ∧
    (⟨true, true⟩ : AudioReadState).onAudibleChunkArmed = true ∧
    150 < averageAmplitude [200, 200] ∧
    (wrappedRead ⟨true, true⟩ ⟨[200, 200], false, 3⟩ 9).queued = [QueueEvent.firstAudibleChunk] :=
  ⟨rfl, rfl, loudExampleChunk,
    (c9_amplitude_before_mute ⟨true, true⟩ ⟨[200, 200], false, 3⟩ 9 rfl rfl loudExampleChunk).1⟩

/-- C8: a failure (rejected promise or thrown exception) anywhere inside the
`_startOnce` startup and loop sequence is not propagated by `start()`; the
catch converts it into a single dispatched `error` event carrying the
failure. -/
theorem c8_start_catches (message : String) (cfg : SessionConfig) (events : List QueueEvent) :
    startMethod (some message) cfg events = [Dispatched.error message] ∧
    (startMethod (some message) cfg events).countP Dispatched.isError = 1 := by
  constructor <;>
    simp [startMethod, startOnceResult, List.countP_cons, Dispatched.isError]

/-- C10: if neither `authorizationToken` nor `subscriptionKey` is provided,
or the environment lacks `getUserMedia`, the ponyfill factory returns — it
does not throw — an object exposing no `SpeechRecognition`,
`SpeechGrammarList` or `SpeechRecognitionEvent`, and logs exactly one console
warning. -/
theorem c10_factory_guard (options : PonyfillOptions)
    (h : (options.hasAuthorizationToken = false ∧ options.hasSubscriptionKey = false) ∨
      options.hasGetUserMedia = false) :
    ∃ warnings : List String,
      createSpeechRecognitionPonyfill options =
        .ok ({ hasSpeechGrammarList := false
               hasSpeechRecognition := false
               hasSpeechRecognitionEvent := false }, warnings) ∧
      warnings.length = 1 := by
  rcases h with ⟨h1, h2⟩ | h3
  · refine ⟨["web-speech-cognitive-services: Either authorizationToken or subscriptionKey must be specified"], ?_, rfl⟩
    simp [createSpeechRecognitionPonyfill, h1, h2]
  · cases ha : options.hasAuthorizationToken
    · cases hs : options.hasSubscriptionKey
      · refine ⟨["web-speech-cognitive-services: Either authorizationToken or subscriptionKey must be specified"], ?_, rfl⟩
        simp [createSpeechRecognitionPonyfill, ha, hs]
      · refine ⟨["web-speech-cognitive-services: This browser does not support WebRTC and it will not work with Cognitive Services Speech Services."], ?_, rfl⟩
        simp [createSpeechRecognitionPonyfill, ha, hs, h3]
    · refine ⟨["web-speech-cognitive-services: This browser does not support WebRTC and it will not work with Cognitive Services Speech Services."], ?_, rfl⟩
      simp [createSpeechRecognitionPonyfill, ha, h3]

/-- C10 witness with both credentials missing. -/
theorem c10_factory_guard_witness :
    ((⟨false, false, true, false⟩ : PonyfillOptions).hasAuthorizationToken = false ∧
      (⟨false, false, true, false⟩ : PonyfillOptions).hasSubscriptionKey = false) ∧
    ∃ warnings : List String,
      createSpeechRecognitionPonyfill ⟨false, false, true, false⟩ =
        .ok ({ hasSpeechGrammarList := false
               hasSpeechRecognition := false
               hasSpeechRecognitionEvent := false }, warnings) ∧
      warnings.length = 1 :=
  ⟨⟨rfl, rfl⟩, c10_factory_guard ⟨false, false, true, false⟩ (Or.inl ⟨rfl, rfl⟩)⟩

/-- C4 counterexample: a session whose queue holds a recognizable
`recognized` event, then a finalized `recognized` event with an empty n-best
list, then `audioSourceOff`, terminates with a `result` dispatch and no error
event at all — refuting the claim as universally stated. -/
theorem c4_counterexample :
    QueueEvent.recognized emptyNBestResult ∈
      ([QueueEvent.recognized helloResult, QueueEvent.recognized emptyNBestResult,
        QueueEvent.audioSourceOff] : List QueueEvent) ∧
    emptyNBestResult.nBest = [] ∧
    (startOnce cfgDefault [QueueEvent.recognized helloResult,
      QueueEvent.recognized emptyNBestResult, QueueEvent.audioSourceOff]).completed = true ∧
    (startOnce cfgDefault [QueueEvent.recognized helloResult,
      QueueEvent.recognized emptyNBestResult, QueueEvent.audioSourceOff]).out.countP
      Dispatched.isError = 0 ∧
    (startOnce cfgDefault [QueueEvent.recognized helloResult,
      QueueEvent.recognized emptyNBestResult, QueueEvent.audioSourceOff]).out.countP
      Dispatched.isResult = 1 := by
  decide


def QueueEvent.isCanceled : QueueEvent → Bool
  | .canceled _ => true
  | _ => false

def QueueEvent.isAbort : QueueEvent → Bool
  | .abort => true
  | _ => false

/-- Is this queue event a `recognized` event whose normalized top transcript
is non-empty (a recognizable recognition)? -/
def recognizableEvent (cfg : SessionConfig) : QueueEvent → Bool
  | .recognized r => recognizableResult cfg r
  | _ => false

/-- A staged final event that can only surface as a `no-speech` error: absent,
already `no-speech`, or an empty `result` (which the exit path promotes to
`no-speech`). -/
def quietFinalEvent (fe : Option FinalEvent) : Prop :=
  fe = none ∨ fe = some (.error "no-speech") ∨ fe = some (.result [])

theorem startOnce_consumed (cfg : SessionConfig) (events : List QueueEvent) :
    (startOnce cfg events).consumed = (runLoop cfg initialLoopState events).consumed := by
  simp only [startOnce]
  split <;> rfl

theorem startOnce_completed (cfg : SessionConfig) (events : List QueueEvent) :
    (startOnce cfg events).completed = (runLoop cfg initialLoopState events).completed := by
  simp only [startOnce]
  split <;> rfl

theorem startOnce_out_of_completed (cfg : SessionConfig) (events : List QueueEvent)
    (h : (startOnce cfg events).completed = true) :
    (startOnce cfg events).out =
      (runLoop cfg initialLoopState events).out ++
        epilogue (runLoop cfg initialLoopState events).state := by
  rw [startOnce_completed] at h
  simp [startOnce, h]

theorem c4_step_invariant (cfg : SessionConfig) (hint : cfg.interimResults = false)
    (st : LoopState) (e : QueueEvent)
    (hc : e.isCanceled = false) (ha : e.isAbort = false)
    (hr : recognizableEvent cfg e = false)
    (hfr : st.finalizedResults = []) (hfe : quietFinalEvent st.finalEvent) :
    (step cfg st e).state.finalizedResults = [] ∧
    quietFinalEvent (step cfg st e).state.finalEvent ∧
    (step cfg st e).dispatched.countP Dispatched.isResult = 0 ∧
    ((∃ r, e = QueueEvent.recognized r) → (step cfg st e).state.finalEvent ≠ none) ∧
    (st.finalEvent ≠ none → (step cfg st e).state.finalEvent ≠ none) := by
  cases e with
  | canceled s => simp [QueueEvent.isCanceled] at hc
  | abort => simp [QueueEvent.isAbort] at ha
  | recognized r =>
    have hrr : recognizableResult cfg r = false := by
      simpa [recognizableEvent] using hr
    by_cases hnm : r.reason = ResultReason.noMatch <;>
      simp [step, stepAux, recognizedStep, hnm, hrr, hfr, quietFinalEvent,
        startDispatches, backfillDispatches, List.countP_append, List.countP_cons,
        Dispatched.isResult] <;>
      all_goals ((repeat' split) <;> simp_all [Dispatched.isResult])
  | recognizing r =>
    simp [step, stepAux, recognizingStep, hint, hfr, quietFinalEvent,
      startDispatches, backfillDispatches, List.countP_append, List.countP_cons,
      Dispatched.isResult]
    exact hfe
  | audioSourceOff =>
    simp [step, stepAux, hfr, startDispatches, List.countP_append, List.countP_cons,
      Dispatched.isResult, quietFinalEvent]
    exact hfe
  | audioSourceReady =>
    simp [step, stepAux, hfr, startDispatches, List.countP_append, List.countP_cons,
      Dispatched.isResult, quietFinalEvent]
    exact hfe
  | firstAudibleChunk =>
    simp [step, stepAux, hfr, startDispatches, List.countP_append, List.countP_cons,
      Dispatched.isResult, quietFinalEvent]
    exact hfe
  | stop =>
    simp [step, stepAux, hfr, startDispatches, List.countP_append, List.countP_cons,
      Dispatched.isResult, quietFinalEvent]
    exact hfe
  | sessionStarted =>
    simp [step, stepAux, hfr, startDispatches, List.countP_append, List.countP_cons,
      Dispatched.isResult, quietFinalEvent]
    exact hfe
  | sessionStopped =>
    simp [step, stepAux, hfr, startDispatches, List.countP_append, List.countP_cons,
      Dispatched.isResult, quietFinalEvent]
    exact hfe
  | speechStartDetected =>
    simp [step, stepAux, hfr, startDispatches, List.countP_append, List.countP_cons,
      Dispatched.isResult, quietFinalEvent]
    exact hfe
  | speechEndDetected =>
    simp [step, stepAux, hfr, startDispatches, List.countP_append, List.countP_cons,
      Dispatched.isResult, quietFinalEvent]
    exact hfe

theorem c4_run_invariant (cfg : SessionConfig) (hint : cfg.interimResults = false)
    (evs : List QueueEvent) : ∀ st : LoopState,
    evs.all (fun e => !e.isCanceled && !e.isAbort && !recognizableEvent cfg e) = true →
    st.finalizedResults = [] → quietFinalEvent st.finalEvent →
    (runLoop cfg st evs).state.finalizedResults = [] ∧
    quietFinalEvent (runLoop cfg st evs).state.finalEvent ∧
    (runLoop cfg st evs).out.countP Dispatched.isResult = 0 ∧
    ((st.finalEvent ≠ none ∨ ∃ r, QueueEvent.recognized r ∈ (runLoop cfg st evs).consumed) →
      (runLoop cfg st evs).state.finalEvent ≠ none) := by
  induction evs with
  | nil =>
    intro st _ hfr hfe
    refine ⟨hfr, hfe, by simp [runLoop], ?_⟩
    intro h
    rcases h with h | ⟨r, hmem⟩
    · simpa [runLoop] using h
    · simp [runLoop] at hmem
  | cons e rest ih =>
    intro st hall hfr hfe
    rw [List.all_cons, Bool.and_eq_true] at hall
    obtain ⟨he, hrest⟩ := hall
    rw [Bool.and_eq_true, Bool.and_eq_true] at he
    obtain ⟨⟨hc, ha⟩, hr⟩ := he
    rw [Bool.not_eq_true'] at hc ha hr
    have hstep := c4_step_invariant cfg hint st e hc ha hr hfr hfe
    obtain ⟨s1, s2, s3, s4, s5⟩ := hstep
    simp only [runLoop]
    split
    · refine ⟨hfr, hfe, by simp, ?_⟩
      intro h
      rcases h with h | ⟨r, hmem⟩
      · exact h
      · simp at hmem
    · split
      · refine ⟨s1, s2, s3, ?_⟩
        intro h
        rcases h with h | ⟨r, hmem⟩
        · exact s5 h
        · simp at hmem
          exact s4 ⟨r, hmem.symm⟩
      · have hrec := ih (step cfg st e).state hrest s1 s2
        obtain ⟨k1, k2, k3, k4⟩ := hrec
        refine ⟨k1, k2, ?_, ?_⟩
        · simp only [List.countP_append, s3, k3]
        · intro h
          rcases h with h | ⟨r, hmem⟩
          · exact k4 (Or.inl (s5 h))
          · simp only [List.mem_cons] at hmem
            rcases hmem with hmem | hmem
            · exact k4 (Or.inl (s4 ⟨r, hmem.symm⟩))
            · exact k4 (Or.inr ⟨r, hmem⟩)

theorem epilogue_noSpeech (st : LoopState)
    (h : st.finalEvent = some (.error "no-speech") ∨ st.finalEvent = some (.result [])) :
    Dispatched.error "no-speech" ∈ epilogue st ∧
    (epilogue st).countP Dispatched.isResult = 0 := by
  rcases h with h | h <;>
    (simp [epilogue, finalEventDispatch, h, List.countP_append, List.countP_cons,
      Dispatched.isResult]
     all_goals ((repeat' split) <;> simp_all [Dispatched.isResult]))

/-- C4 (amended): if every consumed recognized event is non-recognizable, at
least one recognized event was consumed, no canceled or abort event occurs,
interim results are disabled, and the loop terminates, then the session
dispatches the error `no-speech` and never a `result` event. -/
theorem c4_amended (cfg : SessionConfig) (events : List QueueEvent) (r0 : VendorResult)
    (hint : cfg.interimResults = false)
    (hquiet : events.all
      (fun e => !e.isCanceled && !e.isAbort && !recognizableEvent cfg e) = true)
    (hmem : QueueEvent.recognized r0 ∈ (startOnce cfg events).consumed)
    (hnb : r0.nBest = [])
    (hcomp : (startOnce cfg events).completed = true) :
    Dispatched.error "no-speech" ∈ (startOnce cfg events).out ∧
    (startOnce cfg events).out.countP Dispatched.isResult = 0 := by
  have hout := startOnce_out_of_completed cfg events hcomp
  have hinv := c4_run_invariant cfg hint events initialLoopState hquiet rfl (Or.inl rfl)
  obtain ⟨k1, k2, k3, k4⟩ := hinv
  rw [startOnce_consumed] at hmem
  have hfe : (runLoop cfg initialLoopState events).state.finalEvent ≠ none :=
    k4 (Or.inr ⟨r0, hmem⟩)
  have hq : (runLoop cfg initialLoopState events).state.finalEvent =
      some (.error "no-speech") ∨
      (runLoop cfg initialLoopState events).state.finalEvent = some (.result []) := by
    rcases k2 with h | h | h
    · exact absurd h hfe
    · exact Or.inl h
    · exact Or.inr h
  have hep := epilogue_noSpeech (runLoop cfg initialLoopState events).state hq
  constructor
  · rw [hout]
    exact List.mem_append_right _ hep.1
  · rw [hout, List.countP_append, k3, hep.2]

/-- C4 (amended) witness at a concrete empty-n-best session. -/
theorem c4_amended_witness :
    (cfgDefault.interimResults = false ∧
      ([QueueEvent.recognized emptyNBestResult, QueueEvent.audioSourceOff] :
        List QueueEvent).all
        (fun e => !e.isCanceled && !e.isAbort && !recognizableEvent cfgDefault e) = true ∧
      QueueEvent.recognized emptyNBestResult ∈
        (startOnce cfgDefault [QueueEvent.recognized emptyNBestResult,
          QueueEvent.audioSourceOff]).consumed ∧
      emptyNBestResult.nBest = [] ∧
      (startOnce cfgDefault [QueueEvent.recognized emptyNBestResult,
        QueueEvent.audioSourceOff]).completed = true) ∧
    (Dispatched.error "no-speech" ∈
      (startOnce cfgDefault [QueueEvent.recognized emptyNBestResult,
        QueueEvent.audioSourceOff]).out ∧
    (startOnce cfgDefault [QueueEvent.recognized emptyNBestResult,
      QueueEvent.audioSourceOff]).out.countP Dispatched.isResult = 0) :=
  ⟨⟨by decide, by decide, by decide, by decide, by decide⟩,
    c4_amended cfgDefault [QueueEvent.recognized emptyNBestResult, QueueEvent.audioSourceOff]
      emptyNBestResult (by decide) (by decide) (by decide) (by decide) (by decide)⟩


def Dispatched.isAudiostart : Dispatched → Bool
  | .audiostart => true
  | _ => false

def Dispatched.isAudioend : Dispatched → Bool
  | .audioend => true
  | _ => false

def Dispatched.isSoundstart : Dispatched → Bool
  | .soundstart => true
  | _ => false

def Dispatched.isSoundend : Dispatched → Bool
  | .soundend => true
  | _ => false

def Dispatched.isSpeechstart : Dispatched → Bool
  | .speechstart => true
  | _ => false

def Dispatched.isSpeechend : Dispatched → Bool
  | .speechend => true
  | _ => false

/-- Queue shapes the audio source and the one-shot monitor can actually
produce: `audioSourceReady` and `firstAudibleChunk` each occur at most once,
and only before any recognition event (the three flags record whether a
ready / first-audible / recognition event has been seen already). -/
def wellFormedQueue : Bool → Bool → Bool → List QueueEvent → Bool
  | _, _, _, [] => true
  | sr, sa, sg, QueueEvent.audioSourceReady :: rest =>
    !sr && !sg && wellFormedQueue true sa sg rest
  | sr, sa, sg, QueueEvent.firstAudibleChunk :: rest =>
    !sa && !sg && wellFormedQueue sr true sg rest
  | sr, sa, sg, QueueEvent.recognized _ :: rest => wellFormedQueue sr sa true rest
  | sr, sa, sg, QueueEvent.recognizing _ :: rest => wellFormedQueue sr sa true rest
  | sr, sa, sg, _ :: rest => wellFormedQueue sr sa sg rest

theorem runLoop_out_exit (cfg : SessionConfig) (st : LoopState) (evs : List QueueEvent)
    (h : (st.stopping && !st.audioStarted) = true) :
    (runLoop cfg st evs).out = [] := by
  cases evs <;> simp [runLoop, h]

theorem runLoop_state_exit (cfg : SessionConfig) (st : LoopState) (evs : List QueueEvent)
    (h : (st.stopping && !st.audioStarted) = true) :
    (runLoop cfg st evs).state = st := by
  cases evs <;> simp [runLoop, h]

theorem runLoop_out_continue (cfg : SessionConfig) (st : LoopState) (e : QueueEvent)
    (rest : List QueueEvent) (hc : ¬(st.stopping && !st.audioStarted) = true)
    (hb : (step cfg st e).broke = false) :
    (runLoop cfg st (e :: rest)).out =
      (step cfg st e).dispatched ++ (runLoop cfg (step cfg st e).state rest).out := by
  simp [runLoop, hc, hb]

theorem runLoop_state_continue (cfg : SessionConfig) (st : LoopState) (e : QueueEvent)
    (rest : List QueueEvent) (hc : ¬(st.stopping && !st.audioStarted) = true)
    (hb : (step cfg st e).broke = false) :
    (runLoop cfg st (e :: rest)).state = (runLoop cfg (step cfg st e).state rest).state := by
  simp [runLoop, hc, hb]

theorem runLoop_out_broke (cfg : SessionConfig) (st : LoopState) (e : QueueEvent)
    (rest : List QueueEvent) (hc : ¬(st.stopping && !st.audioStarted) = true)
    (hb : (step cfg st e).broke = true) :
    (runLoop cfg st (e :: rest)).out = (step cfg st e).dispatched := by
  simp [runLoop, hc, hb]

theorem runLoop_state_broke (cfg : SessionConfig) (st : LoopState) (e : QueueEvent)
    (rest : List QueueEvent) (hc : ¬(st.stopping && !st.audioStarted) = true)
    (hb : (step cfg st e).broke = true) :
    (runLoop cfg st (e :: rest)).state = (step cfg st e).state := by
  simp [runLoop, hc, hb]


/-- Numeric view of a lifecycle flag. -/
def flagNat (b : Bool) : Nat := if b then 1 else 0

theorem flagNat_true : flagNat true = 1 := rfl

theorem flagNat_false : flagNat false = 0 := rfl

theorem flagNat_le_one (b : Bool) : flagNat b ≤ 1 := by
  cases b <;> simp [flagNat]

theorem countP_startDispatches (p : Dispatched → Bool) (st : LoopState)
    (hp : p Dispatched.start = false) :
    (startDispatches st).countP p = 0 := by
  simp only [startDispatches]
  split <;> simp [hp]

theorem countP_flagList (p : Dispatched → Bool) (b : Bool) (d : Dispatched) :
    List.countP p (if b = true then [d] else []) =
      if p d = true then flagNat b else 0 := by
  cases b <;> cases hd : p d <;> simp [flagNat, hd]

theorem countP_notFlagList (p : Dispatched → Bool) (b : Bool) (d : Dispatched) :
    List.countP p (if b = true then [] else [d]) =
      if p d = true then 1 - flagNat b else 0 := by
  cases b <;> cases hd : p d <;> simp [flagNat, hd]

theorem iteTrueEq {α : Type} (a b : α) : (if true = true then a else b) = a := rfl

theorem iteFalseEq {α : Type} (a b : α) : (if false = true then a else b) = b := rfl

theorem countP_resultIte (p : Dispatched → Bool) (c : Prop) [Decidable c]
    (rs : List (List WebSpeechAlternative))
    (hp : ∀ rs', p (Dispatched.result rs') = false) :
    List.countP p (if c then [Dispatched.result rs] else []) = 0 := by
  split <;> simp [hp]

set_option maxHeartbeats 2000000 in
set_option maxRecDepth 8000 in
theorem c2_run_invariant (cfg : SessionConfig) (evs : List QueueEvent) :
    ∀ (st : LoopState) (sr sa sg : Bool),
    wellFormedQueue sr sa sg evs = true →
    (st.audioStarted = true → sr = true ∨ sg = true) →
    (st.soundStarted = true → sa = true ∨ sg = true) →
    ((runLoop cfg st evs).out.countP Dispatched.isAudiostart + flagNat st.audioStarted =
      (runLoop cfg st evs).out.countP Dispatched.isAudioend +
        flagNat (runLoop cfg st evs).state.audioStarted) ∧
    ((runLoop cfg st evs).out.countP Dispatched.isAudiostart + flagNat st.audioStarted ≤ 1) ∧
    ((runLoop cfg st evs).out.countP Dispatched.isSoundstart + flagNat st.soundStarted =
      (runLoop cfg st evs).out.countP Dispatched.isSoundend +
        flagNat (runLoop cfg st evs).state.soundStarted) ∧
    ((runLoop cfg st evs).out.countP Dispatched.isSoundstart + flagNat st.soundStarted ≤ 1) ∧
    ((runLoop cfg st evs).out.countP Dispatched.isSpeechstart + flagNat st.speechStarted =
      (runLoop cfg st evs).out.countP Dispatched.isSpeechend +
        flagNat (runLoop cfg st evs).state.speechStarted) ∧
    ((runLoop cfg st evs).out.countP Dispatched.isSpeechstart + flagNat st.speechStarted ≤ 1) := by
  induction evs with
  | nil =>
    intro st sr sa sg hwf h1 h2
    simp [runLoop, flagNat_le_one]
  | cons e rest ih =>
    intro st sr sa sg hwf h1 h2
    by_cases hcond : (st.stopping && !st.audioStarted) = true
    · simp [runLoop_out_exit cfg st _ hcond, runLoop_state_exit cfg st _ hcond,
        flagNat_le_one]
    · cases e with
      | audioSourceReady =>
        simp only [wellFormedQueue, Bool.and_eq_true, Bool.not_eq_true'] at hwf
        obtain ⟨⟨hsr, hsg⟩, hwf2⟩ := hwf
        have haf : st.audioStarted = false := by
          cases hflag : st.audioStarted
          · rfl
          · rcases h1 hflag with h | h
            · simp [h] at hsr
            · simp [h] at hsg
        have hb : (step cfg st QueueEvent.audioSourceReady).broke = false := rfl
        rw [runLoop_out_continue cfg st _ rest hcond hb,
          runLoop_state_continue cfg st _ rest hcond hb]
        obtain ⟨i1, i2, i3, i4, i5, i6⟩ :=
          ih (step cfg st QueueEvent.audioSourceReady).state true sa sg hwf2
            (fun _ => Or.inl rfl) h2
        set K := runLoop cfg (step cfg st QueueEvent.audioSourceReady).state rest
        simp only [step, stepAux] at i1 i2 i3 i4 i5 i6 ⊢
        try simp only [List.countP_append, List.countP_cons, List.countP_nil,
            countP_startDispatches, countP_flagList, countP_notFlagList, countP_resultIte,
            backfillDispatches, iteTrueEq, iteFalseEq, if_true, if_false, true_and, and_true, flagNat_true, flagNat_false, Dispatched.isAudiostart, Dispatched.isAudioend, Dispatched.isSoundstart,
            Dispatched.isSoundend, Dispatched.isSpeechstart, Dispatched.isSpeechend] at i1 i2 i3 i4 i5 i6
        simp only [List.countP_append, List.countP_cons, List.countP_nil,
            countP_startDispatches, countP_flagList, countP_notFlagList, countP_resultIte,
            backfillDispatches, iteTrueEq, iteFalseEq, if_true, if_false, true_and, and_true, flagNat_true, flagNat_false, Dispatched.isAudiostart, Dispatched.isAudioend, Dispatched.isSoundstart,
            Dispatched.isSoundend, Dispatched.isSpeechstart, Dispatched.isSpeechend, haf]
        all_goals omega
      | firstAudibleChunk =>
        simp only [wellFormedQueue, Bool.and_eq_true, Bool.not_eq_true'] at hwf
        obtain ⟨⟨hsa, hsg⟩, hwf2⟩ := hwf
        have hsf : st.soundStarted = false := by
          cases hflag : st.soundStarted
          · rfl
          · rcases h2 hflag with h | h
            · simp [h] at hsa
            · simp [h] at hsg
        have hb : (step cfg st QueueEvent.firstAudibleChunk).broke = false := rfl
        rw [runLoop_out_continue cfg st _ rest hcond hb,
          runLoop_state_continue cfg st _ rest hcond hb]
        obtain ⟨i1, i2, i3, i4, i5, i6⟩ :=
          ih (step cfg st QueueEvent.firstAudibleChunk).state sr true sg hwf2
            h1 (fun _ => Or.inl rfl)
        set K := runLoop cfg (step cfg st QueueEvent.firstAudibleChunk).state rest
        simp only [step, stepAux] at i1 i2 i3 i4 i5 i6 ⊢
        try simp only [List.countP_append, List.countP_cons, List.countP_nil,
            countP_startDispatches, countP_flagList, countP_notFlagList, countP_resultIte,
            backfillDispatches, iteTrueEq, iteFalseEq, if_true, if_false, true_and, and_true, flagNat_true, flagNat_false, Dispatched.isAudiostart, Dispatched.isAudioend, Dispatched.isSoundstart,
            Dispatched.isSoundend, Dispatched.isSpeechstart, Dispatched.isSpeechend] at i1 i2 i3 i4 i5 i6
        simp only [List.countP_append, List.countP_cons, List.countP_nil,
            countP_startDispatches, countP_flagList, countP_notFlagList, countP_resultIte,
            backfillDispatches, iteTrueEq, iteFalseEq, if_true, if_false, true_and, and_true, flagNat_true, flagNat_false, Dispatched.isAudiostart, Dispatched.isAudioend, Dispatched.isSoundstart,
            Dispatched.isSoundend, Dispatched.isSpeechstart, Dispatched.isSpeechend, hsf]
        all_goals omega
      | audioSourceOff =>
        have hb : (step cfg st QueueEvent.audioSourceOff).broke = true := rfl
        rw [runLoop_out_broke cfg st _ rest hcond hb,
          runLoop_state_broke cfg st _ rest hcond hb]
        have hA := flagNat_le_one st.audioStarted
        have hS := flagNat_le_one st.soundStarted
        have hP := flagNat_le_one st.speechStarted
        simp only [step, stepAux]
        simp only [List.countP_append, List.countP_cons, List.countP_nil,
            countP_startDispatches, countP_flagList, countP_notFlagList, countP_resultIte,
            backfillDispatches, iteTrueEq, iteFalseEq, if_true, if_false, true_and, and_true, flagNat_true, flagNat_false, Dispatched.isAudiostart, Dispatched.isAudioend, Dispatched.isSoundstart,
            Dispatched.isSoundend, Dispatched.isSpeechstart, Dispatched.isSpeechend]
        all_goals omega
      | canceled s =>
        simp only [wellFormedQueue] at hwf
        by_cases hp : testPermissionDenied s = true
        · have hb : (step cfg st (QueueEvent.canceled s)).broke = true := by
            simp [step, stepAux, hp]
          have hd : (step cfg st (QueueEvent.canceled s)).dispatched =
              [Dispatched.cognitiveservices "canceled"] := by
            simp [step, stepAux, hp, QueueEvent.name]
          have ha1 : (step cfg st (QueueEvent.canceled s)).state.audioStarted =
              st.audioStarted := by simp [step, stepAux, hp]
          have ha2 : (step cfg st (QueueEvent.canceled s)).state.soundStarted =
              st.soundStarted := by simp [step, stepAux, hp]
          have ha3 : (step cfg st (QueueEvent.canceled s)).state.speechStarted =
              st.speechStarted := by simp [step, stepAux, hp]
          rw [runLoop_out_broke cfg st _ rest hcond hb,
            runLoop_state_broke cfg st _ rest hcond hb, hd, ha1, ha2, ha3]
          have hA := flagNat_le_one st.audioStarted
          have hS := flagNat_le_one st.soundStarted
          have hP := flagNat_le_one st.speechStarted
          simp only [List.countP_append, List.countP_cons, List.countP_nil,
            countP_startDispatches, countP_flagList, countP_notFlagList, countP_resultIte,
            backfillDispatches, iteTrueEq, iteFalseEq, if_true, if_false, true_and, and_true, flagNat_true, flagNat_false, Dispatched.isAudiostart, Dispatched.isAudioend, Dispatched.isSoundstart,
            Dispatched.isSoundend, Dispatched.isSpeechstart, Dispatched.isSpeechend]
          all_goals omega
        · by_cases he : s = ""
          · have hpe : testPermissionDenied "" = false := by decide
            have hb : (step cfg st (QueueEvent.canceled s)).broke = false := by
              simp [step, stepAux, he, hpe]
            have hst1 : (step cfg st (QueueEvent.canceled s)).state.audioStarted =
                st.audioStarted := by simp [step, stepAux, he, hpe]
            have hst2 : (step cfg st (QueueEvent.canceled s)).state.soundStarted =
                st.soundStarted := by simp [step, stepAux, he, hpe]
            rw [runLoop_out_continue cfg st _ rest hcond hb,
              runLoop_state_continue cfg st _ rest hcond hb]
            obtain ⟨i1, i2, i3, i4, i5, i6⟩ :=
              ih (step cfg st (QueueEvent.canceled s)).state sr sa sg hwf
                (fun h => h1 (by rwa [hst1] at h))
                (fun h => h2 (by rwa [hst2] at h))
            set K := runLoop cfg (step cfg st (QueueEvent.canceled s)).state rest
            simp only [step, stepAux, he, hpe, if_true, if_false, Bool.false_eq_true]
              at i1 i2 i3 i4 i5 i6 ⊢
            try simp only [List.countP_append, List.countP_cons, List.countP_nil,
            countP_startDispatches, countP_flagList, countP_notFlagList, countP_resultIte,
            backfillDispatches, iteTrueEq, iteFalseEq, if_true, if_false, true_and, and_true, flagNat_true, flagNat_false, Dispatched.isAudiostart, Dispatched.isAudioend, Dispatched.isSoundstart,
            Dispatched.isSoundend, Dispatched.isSpeechstart, Dispatched.isSpeechend] at i1 i2 i3 i4 i5 i6
            simp only [List.countP_append, List.countP_cons, List.countP_nil,
            countP_startDispatches, countP_flagList, countP_notFlagList, countP_resultIte,
            backfillDispatches, iteTrueEq, iteFalseEq, if_true, if_false, true_and, and_true, flagNat_true, flagNat_false, Dispatched.isAudiostart, Dispatched.isAudioend, Dispatched.isSoundstart,
            Dispatched.isSoundend, Dispatched.isSpeechstart, Dispatched.isSpeechend]
            all_goals omega
          · have hb : (step cfg st (QueueEvent.canceled s)).broke = true := by
              simp only [step, stepAux, canceledErrorStep, hp, he]
              (repeat' split) <;> simp_all
            rw [runLoop_out_broke cfg st _ rest hcond hb,
              runLoop_state_broke cfg st _ rest hcond hb]
            have hA := flagNat_le_one st.audioStarted
            have hS := flagNat_le_one st.soundStarted
            have hP := flagNat_le_one st.speechStarted
            simp only [step, stepAux, canceledErrorStep, hp, he, if_true, if_false,
              Bool.false_eq_true]
            cases hA' : st.audioStarted <;>
              cases h6 : testCode1006 s <;>
              simp only [hA', h6, if_true, if_false, Bool.false_eq_true,
                Bool.true_eq_false, List.countP_append, List.countP_cons, List.countP_nil,
            countP_startDispatches, countP_flagList, countP_notFlagList, countP_resultIte,
            backfillDispatches, iteTrueEq, iteFalseEq, if_true, if_false, true_and, and_true, flagNat_true, flagNat_false, Dispatched.isAudiostart, Dispatched.isAudioend, Dispatched.isSoundstart,
            Dispatched.isSoundend, Dispatched.isSpeechstart, Dispatched.isSpeechend] <;>
              all_goals omega
      | recognized r =>
        simp only [wellFormedQueue] at hwf
        have hb : (step cfg st (QueueEvent.recognized r)).broke = false := by
          simp only [step, stepAux, recognizedStep, recognizingStep]
          (repeat' split) <;> rfl
        rw [runLoop_out_continue cfg st _ rest hcond hb,
          runLoop_state_continue cfg st _ rest hcond hb]
        obtain ⟨i1, i2, i3, i4, i5, i6⟩ :=
          ih (step cfg st (QueueEvent.recognized r)).state sr sa true hwf
            (fun _ => Or.inr rfl) (fun _ => Or.inr rfl)
        set K := runLoop cfg (step cfg st (QueueEvent.recognized r)).state rest
        have hA := flagNat_le_one st.audioStarted
        have hS := flagNat_le_one st.soundStarted
        have hP := flagNat_le_one st.speechStarted
        by_cases hnm : r.reason = ResultReason.noMatch
        · try simp only [step, stepAux, recognizedStep, hnm, if_true]
            at i1 i2 i3 i4 i5 i6 ⊢
          try simp only [List.countP_append, List.countP_cons, List.countP_nil,
            countP_startDispatches, countP_flagList, countP_notFlagList, countP_resultIte,
            backfillDispatches, iteTrueEq, iteFalseEq, if_true, if_false, true_and, and_true, flagNat_true, flagNat_false, Dispatched.isAudiostart, Dispatched.isAudioend, Dispatched.isSoundstart,
            Dispatched.isSoundend, Dispatched.isSpeechstart, Dispatched.isSpeechend] at i1 i2 i3 i4 i5 i6
          try simp only [List.countP_append, List.countP_cons, List.countP_nil,
            countP_startDispatches, countP_flagList, countP_notFlagList, countP_resultIte,
            backfillDispatches, iteTrueEq, iteFalseEq, if_true, if_false, true_and, and_true, flagNat_true, flagNat_false, Dispatched.isAudiostart, Dispatched.isAudioend, Dispatched.isSoundstart,
            Dispatched.isSoundend, Dispatched.isSpeechstart, Dispatched.isSpeechend]
          all_goals omega
        · try simp only [step, stepAux, recognizedStep, hnm, if_false]
            at i1 i2 i3 i4 i5 i6 ⊢
          try simp only [List.countP_append, List.countP_cons, List.countP_nil,
            countP_startDispatches, countP_flagList, countP_notFlagList, countP_resultIte,
            backfillDispatches, iteTrueEq, iteFalseEq, if_true, if_false, true_and, and_true, flagNat_true, flagNat_false, Dispatched.isAudiostart, Dispatched.isAudioend, Dispatched.isSoundstart,
            Dispatched.isSoundend, Dispatched.isSpeechstart, Dispatched.isSpeechend] at i1 i2 i3 i4 i5 i6
          try simp only [List.countP_append, List.countP_cons, List.countP_nil,
            countP_startDispatches, countP_flagList, countP_notFlagList, countP_resultIte,
            backfillDispatches, iteTrueEq, iteFalseEq, if_true, if_false, true_and, and_true, flagNat_true, flagNat_false, Dispatched.isAudiostart, Dispatched.isAudioend, Dispatched.isSoundstart,
            Dispatched.isSoundend, Dispatched.isSpeechstart, Dispatched.isSpeechend]
          all_goals omega
      | recognizing r =>
        simp only [wellFormedQueue] at hwf
        have hb : (step cfg st (QueueEvent.recognizing r)).broke = false := rfl
        rw [runLoop_out_continue cfg st _ rest hcond hb,
          runLoop_state_continue cfg st _ rest hcond hb]
        obtain ⟨i1, i2, i3, i4, i5, i6⟩ :=
          ih (step cfg st (QueueEvent.recognizing r)).state sr sa true hwf
            (fun _ => Or.inr rfl) (fun _ => Or.inr rfl)
        set K := runLoop cfg (step cfg st (QueueEvent.recognizing r)).state rest
        have hA := flagNat_le_one st.audioStarted
        have hS := flagNat_le_one st.soundStarted
        have hP := flagNat_le_one st.speechStarted
        try simp only [step, stepAux, recognizingStep] at i1 i2 i3 i4 i5 i6 ⊢
        try simp only [List.countP_append, List.countP_cons, List.countP_nil,
            countP_startDispatches, countP_flagList, countP_notFlagList, countP_resultIte,
            backfillDispatches, iteTrueEq, iteFalseEq, if_true, if_false, true_and, and_true, flagNat_true, flagNat_false, Dispatched.isAudiostart, Dispatched.isAudioend, Dispatched.isSoundstart,
            Dispatched.isSoundend, Dispatched.isSpeechstart, Dispatched.isSpeechend] at i1 i2 i3 i4 i5 i6
        try simp only [List.countP_append, List.countP_cons, List.countP_nil,
            countP_startDispatches, countP_flagList, countP_notFlagList, countP_resultIte,
            backfillDispatches, iteTrueEq, iteFalseEq, if_true, if_false, true_and, and_true, flagNat_true, flagNat_false, Dispatched.isAudiostart, Dispatched.isAudioend, Dispatched.isSoundstart,
            Dispatched.isSoundend, Dispatched.isSpeechstart, Dispatched.isSpeechend]
        all_goals omega
      | abort =>
        simp only [wellFormedQueue] at hwf
        have hb : (step cfg st QueueEvent.abort).broke = false := rfl
        rw [runLoop_out_continue cfg st _ rest hcond hb,
          runLoop_state_continue cfg st _ rest hcond hb]
        obtain ⟨i1, i2, i3, i4, i5, i6⟩ :=
          ih (step cfg st QueueEvent.abort).state sr sa sg hwf h1 h2
        set K := runLoop cfg (step cfg st QueueEvent.abort).state rest
        simp only [step, stepAux] at i1 i2 i3 i4 i5 i6 ⊢
        try simp only [List.countP_append, List.countP_cons, List.countP_nil,
            countP_startDispatches, countP_flagList, countP_notFlagList, countP_resultIte,
            backfillDispatches, iteTrueEq, iteFalseEq, if_true, if_false, true_and, and_true, flagNat_true, flagNat_false, Dispatched.isAudiostart, Dispatched.isAudioend, Dispatched.isSoundstart,
            Dispatched.isSoundend, Dispatched.isSpeechstart, Dispatched.isSpeechend] at i1 i2 i3 i4 i5 i6
        simp only [List.countP_append, List.countP_cons, List.countP_nil,
            countP_startDispatches, countP_flagList, countP_notFlagList, countP_resultIte,
            backfillDispatches, iteTrueEq, iteFalseEq, if_true, if_false, true_and, and_true, flagNat_true, flagNat_false, Dispatched.isAudiostart, Dispatched.isAudioend, Dispatched.isSoundstart,
            Dispatched.isSoundend, Dispatched.isSpeechstart, Dispatched.isSpeechend]
        all_goals omega
      | stop =>
        simp only [wellFormedQueue] at hwf
        have hb : (step cfg st QueueEvent.stop).broke = false := rfl
        rw [runLoop_out_continue cfg st _ rest hcond hb,
          runLoop_state_continue cfg st _ rest hcond hb]
        obtain ⟨i1, i2, i3, i4, i5, i6⟩ :=
          ih (step cfg st QueueEvent.stop).state sr sa sg hwf h1 h2
        set K := runLoop cfg (step cfg st QueueEvent.stop).state rest
        simp only [step, stepAux] at i1 i2 i3 i4 i5 i6 ⊢
        try simp only [List.countP_append, List.countP_cons, List.countP_nil,
            countP_startDispatches, countP_flagList, countP_notFlagList, countP_resultIte,
            backfillDispatches, iteTrueEq, iteFalseEq, if_true, if_false, true_and, and_true, flagNat_true, flagNat_false, Dispatched.isAudiostart, Dispatched.isAudioend, Dispatched.isSoundstart,
            Dispatched.isSoundend, Dispatched.isSpeechstart, Dispatched.isSpeechend] at i1 i2 i3 i4 i5 i6
        simp only [List.countP_append, List.countP_cons, List.countP_nil,
            countP_startDispatches, countP_flagList, countP_notFlagList, countP_resultIte,
            backfillDispatches, iteTrueEq, iteFalseEq, if_true, if_false, true_and, and_true, flagNat_true, flagNat_false, Dispatched.isAudiostart, Dispatched.isAudioend, Dispatched.isSoundstart,
            Dispatched.isSoundend, Dispatched.isSpeechstart, Dispatched.isSpeechend]
        all_goals omega
      | sessionStarted =>
        simp only [wellFormedQueue] at hwf
        have hb : (step cfg st QueueEvent.sessionStarted).broke = false := rfl
        rw [runLoop_out_continue cfg st _ rest hcond hb,
          runLoop_state_continue cfg st _ rest hcond hb]
        obtain ⟨i1, i2, i3, i4, i5, i6⟩ :=
          ih (step cfg st QueueEvent.sessionStarted).state sr sa sg hwf h1 h2
        set K := runLoop cfg (step cfg st QueueEvent.sessionStarted).state rest
        simp only [step, stepAux] at i1 i2 i3 i4 i5 i6 ⊢
        try simp only [List.countP_append, List.countP_cons, List.countP_nil,
            countP_startDispatches, countP_flagList, countP_notFlagList, countP_resultIte,
            backfillDispatches, iteTrueEq, iteFalseEq, if_true, if_false, true_and, and_true, flagNat_true, flagNat_false, Dispatched.isAudiostart, Dispatched.isAudioend, Dispatched.isSoundstart,
            Dispatched.isSoundend, Dispatched.isSpeechstart, Dispatched.isSpeechend] at i1 i2 i3 i4 i5 i6
        simp only [List.countP_append, List.countP_cons, List.countP_nil,
            countP_startDispatches, countP_flagList, countP_notFlagList, countP_resultIte,
            backfillDispatches, iteTrueEq, iteFalseEq, if_true, if_false, true_and, and_true, flagNat_true, flagNat_false, Dispatched.isAudiostart, Dispatched.isAudioend, Dispatched.isSoundstart,
            Dispatched.isSoundend, Dispatched.isSpeechstart, Dispatched.isSpeechend]
        all_goals omega
      | sessionStopped =>
        simp only [wellFormedQueue] at hwf
        have hb : (step cfg st QueueEvent.sessionStopped).broke = false := rfl
        rw [runLoop_out_continue cfg st _ rest hcond hb,
          runLoop_state_continue cfg st _ rest hcond hb]
        obtain ⟨i1, i2, i3, i4, i5, i6⟩ :=
          ih (step cfg st QueueEvent.sessionStopped).state sr sa sg hwf h1 h2
        set K := runLoop cfg (step cfg st QueueEvent.sessionStopped).state rest
        simp only [step, stepAux] at i1 i2 i3 i4 i5 i6 ⊢
        try simp only [List.countP_append, List.countP_cons, List.countP_nil,
            countP_startDispatches, countP_flagList, countP_notFlagList, countP_resultIte,
            backfillDispatches, iteTrueEq, iteFalseEq, if_true, if_false, true_and, and_true, flagNat_true, flagNat_false, Dispatched.isAudiostart, Dispatched.isAudioend, Dispatched.isSoundstart,
            Dispatched.isSoundend, Dispatched.isSpeechstart, Dispatched.isSpeechend] at i1 i2 i3 i4 i5 i6
        simp only [List.countP_append, List.countP_cons, List.countP_nil,
            countP_startDispatches, countP_flagList, countP_notFlagList, countP_resultIte,
            backfillDispatches, iteTrueEq, iteFalseEq, if_true, if_false, true_and, and_true, flagNat_true, flagNat_false, Dispatched.isAudiostart, Dispatched.isAudioend, Dispatched.isSoundstart,
            Dispatched.isSoundend, Dispatched.isSpeechstart, Dispatched.isSpeechend]
        all_goals omega
      | speechStartDetected =>
        simp only [wellFormedQueue] at hwf
        have hb : (step cfg st QueueEvent.speechStartDetected).broke = false := rfl
        rw [runLoop_out_continue cfg st _ rest hcond hb,
          runLoop_state_continue cfg st _ rest hcond hb]
        obtain ⟨i1, i2, i3, i4, i5, i6⟩ :=
          ih (step cfg st QueueEvent.speechStartDetected).state sr sa sg hwf h1 h2
        set K := runLoop cfg (step cfg st QueueEvent.speechStartDetected).state rest
        simp only [step, stepAux] at i1 i2 i3 i4 i5 i6 ⊢
        try simp only [List.countP_append, List.countP_cons, List.countP_nil,
            countP_startDispatches, countP_flagList, countP_notFlagList, countP_resultIte,
            backfillDispatches, iteTrueEq, iteFalseEq, if_true, if_false, true_and, and_true, flagNat_true, flagNat_false, Dispatched.isAudiostart, Dispatched.isAudioend, Dispatched.isSoundstart,
            Dispatched.isSoundend, Dispatched.isSpeechstart, Dispatched.isSpeechend] at i1 i2 i3 i4 i5 i6
        simp only [List.countP_append, List.countP_cons, List.countP_nil,
            countP_startDispatches, countP_flagList, countP_notFlagList, countP_resultIte,
            backfillDispatches, iteTrueEq, iteFalseEq, if_true, if_false, true_and, and_true, flagNat_true, flagNat_false, Dispatched.isAudiostart, Dispatched.isAudioend, Dispatched.isSoundstart,
            Dispatched.isSoundend, Dispatched.isSpeechstart, Dispatched.isSpeechend]
        all_goals omega
      | speechEndDetected =>
        simp only [wellFormedQueue] at hwf
        have hb : (step cfg st QueueEvent.speechEndDetected).broke = false := rfl
        rw [runLoop_out_continue cfg st _ rest hcond hb,
          runLoop_state_continue cfg st _ rest hcond hb]
        obtain ⟨i1, i2, i3, i4, i5, i6⟩ :=
          ih (step cfg st QueueEvent.speechEndDetected).state sr sa sg hwf h1 h2
        set K := runLoop cfg (step cfg st QueueEvent.speechEndDetected).state rest
        simp only [step, stepAux] at i1 i2 i3 i4 i5 i6 ⊢
        try simp only [List.countP_append, List.countP_cons, List.countP_nil,
            countP_startDispatches, countP_flagList, countP_notFlagList, countP_resultIte,
            backfillDispatches, iteTrueEq, iteFalseEq, if_true, if_false, true_and, and_true, flagNat_true, flagNat_false, Dispatched.isAudiostart, Dispatched.isAudioend, Dispatched.isSoundstart,
            Dispatched.isSoundend, Dispatched.isSpeechstart, Dispatched.isSpeechend] at i1 i2 i3 i4 i5 i6
        simp only [List.countP_append, List.countP_cons, List.countP_nil,
            countP_startDispatches, countP_flagList, countP_notFlagList, countP_resultIte,
            backfillDispatches, iteTrueEq, iteFalseEq, if_true, if_false, true_and, and_true, flagNat_true, flagNat_false, Dispatched.isAudiostart, Dispatched.isAudioend, Dispatched.isSoundstart,
            Dispatched.isSoundend, Dispatched.isSpeechstart, Dispatched.isSpeechend]
        all_goals omega

theorem countP_finalEventDispatch (p : Dispatched → Bool) (fe : Option FinalEvent)
    (herr : ∀ c, p (Dispatched.error c) = false)
    (hres : ∀ rs, p (Dispatched.result rs) = false) :
    (finalEventDispatch fe).countP p = 0 := by
  rcases fe with _ | fe
  · simp [finalEventDispatch]
  · cases fe with
    | error c => simp [finalEventDispatch, herr]
    | result rs => cases rs <;> simp [finalEventDispatch, herr, hres]

theorem countP_epilogue (p : Dispatched → Bool) (st : LoopState)
    (hend : p Dispatched.endEvent = false)
    (herr : ∀ c, p (Dispatched.error c) = false)
    (hres : ∀ rs, p (Dispatched.result rs) = false) :
    (epilogue st).countP p =
      (if p Dispatched.speechend = true then flagNat st.speechStarted else 0) +
      (if p Dispatched.soundend = true then flagNat st.soundStarted else 0) +
      (if p Dispatched.audioend = true then flagNat st.audioStarted else 0) := by
  simp only [epilogue, List.countP_append, countP_flagList,
    countP_finalEventDispatch p st.finalEvent herr hres, List.countP_cons,
    List.countP_nil, hend, iteFalseEq]
  omega

theorem countP_epilogue_isAudiostart (st : LoopState) :
    (epilogue st).countP Dispatched.isAudiostart = 0 := by
  rw [countP_epilogue Dispatched.isAudiostart st rfl (fun _ => rfl) (fun _ => rfl)]
  simp [Dispatched.isAudiostart]

theorem countP_epilogue_isSoundstart (st : LoopState) :
    (epilogue st).countP Dispatched.isSoundstart = 0 := by
  rw [countP_epilogue Dispatched.isSoundstart st rfl (fun _ => rfl) (fun _ => rfl)]
  simp [Dispatched.isSoundstart]

theorem countP_epilogue_isSpeechstart (st : LoopState) :
    (epilogue st).countP Dispatched.isSpeechstart = 0 := by
  rw [countP_epilogue Dispatched.isSpeechstart st rfl (fun _ => rfl) (fun _ => rfl)]
  simp [Dispatched.isSpeechstart]

theorem countP_epilogue_isAudioend (st : LoopState) :
    (epilogue st).countP Dispatched.isAudioend = flagNat st.audioStarted := by
  rw [countP_epilogue Dispatched.isAudioend st rfl (fun _ => rfl) (fun _ => rfl)]
  simp [Dispatched.isAudioend]

theorem countP_epilogue_isSoundend (st : LoopState) :
    (epilogue st).countP Dispatched.isSoundend = flagNat st.soundStarted := by
  rw [countP_epilogue Dispatched.isSoundend st rfl (fun _ => rfl) (fun _ => rfl)]
  simp [Dispatched.isSoundend]

theorem countP_epilogue_isSpeechend (st : LoopState) :
    (epilogue st).countP Dispatched.isSpeechend = flagNat st.speechStarted := by
  rw [countP_epilogue Dispatched.isSpeechend st rfl (fun _ => rfl) (fun _ => rfl)]
  simp [Dispatched.isSpeechend]

theorem mem_iff_countP_pos (d : Dispatched) (p : Dispatched → Bool) (l : List Dispatched)
    (hiff : ∀ x, p x = true ↔ x = d) :
    d ∈ l ↔ 0 < l.countP p := by
  rw [List.countP_pos]
  constructor
  · exact fun h => ⟨d, h, (hiff d).mpr rfl⟩
  · rintro ⟨a, ha, hp⟩
    exact (hiff a).mp hp ▸ ha

theorem isAudiostart_iff (x : Dispatched) :
    Dispatched.isAudiostart x = true ↔ x = Dispatched.audiostart := by
  cases x <;> simp [Dispatched.isAudiostart]

theorem isAudioend_iff (x : Dispatched) :
    Dispatched.isAudioend x = true ↔ x = Dispatched.audioend := by
  cases x <;> simp [Dispatched.isAudioend]

theorem isSoundstart_iff (x : Dispatched) :
    Dispatched.isSoundstart x = true ↔ x = Dispatched.soundstart := by
  cases x <;> simp [Dispatched.isSoundstart]

theorem isSoundend_iff (x : Dispatched) :
    Dispatched.isSoundend x = true ↔ x = Dispatched.soundend := by
  cases x <;> simp [Dispatched.isSoundend]

theorem isSpeechstart_iff (x : Dispatched) :
    Dispatched.isSpeechstart x = true ↔ x = Dispatched.speechstart := by
  cases x <;> simp [Dispatched.isSpeechstart]

theorem isSpeechend_iff (x : Dispatched) :
    Dispatched.isSpeechend x = true ↔ x = Dispatched.speechend := by
  cases x <;> simp [Dispatched.isSpeechend]

/-- C2 counterexample: a queue carrying `audioSourceReady` twice makes the
loop dispatch `audiostart` twice in one session. -/
theorem c2_counterexample :
    (startOnce cfgDefault [QueueEvent.audioSourceReady, QueueEvent.audioSourceReady,
        QueueEvent.audioSourceOff]).completed = true ∧
    (startOnce cfgDefault [QueueEvent.audioSourceReady, QueueEvent.audioSourceReady,
        QueueEvent.audioSourceOff]).out.countP Dispatched.isAudiostart = 2 := by
  decide

/-- C2 (amended): on well-formed queues (at most one `audioSourceReady` and
one `firstAudibleChunk`, and only before recognition events), each of
`audiostart`/`soundstart`/`speechstart` is dispatched at most once, and each
`...end` event is dispatched iff the matching `...start` was. -/
theorem c2_amended (cfg : SessionConfig) (events : List QueueEvent)
    (hwf : wellFormedQueue false false false events = true)
    (hcomp : (startOnce cfg events).completed = true) :
    ((startOnce cfg events).out.countP Dispatched.isAudiostart ≤ 1) ∧
    ((startOnce cfg events).out.countP Dispatched.isSoundstart ≤ 1) ∧
    ((startOnce cfg events).out.countP Dispatched.isSpeechstart ≤ 1) ∧
    (Dispatched.audiostart ∈ (startOnce cfg events).out ↔
      Dispatched.audioend ∈ (startOnce cfg events).out) ∧
    (Dispatched.soundstart ∈ (startOnce cfg events).out ↔
      Dispatched.soundend ∈ (startOnce cfg events).out) ∧
    (Dispatched.speechstart ∈ (startOnce cfg events).out ↔
      Dispatched.speechend ∈ (startOnce cfg events).out) := by
  have hout := startOnce_out_of_completed cfg events hcomp
  obtain ⟨i1, i2, i3, i4, i5, i6⟩ :=
    c2_run_invariant cfg events initialLoopState false false false hwf
      (fun h => by simp [initialLoopState] at h)
      (fun h => by simp [initialLoopState] at h)
  rw [show initialLoopState.audioStarted = false from rfl] at i1 i2
  rw [show initialLoopState.soundStarted = false from rfl] at i3 i4
  rw [show initialLoopState.speechStarted = false from rfl] at i5 i6
  rw [flagNat_false] at i1 i2 i3 i4 i5 i6
  have t1 : (startOnce cfg events).out.countP Dispatched.isAudiostart =
      (runLoop cfg initialLoopState events).out.countP Dispatched.isAudiostart := by
    rw [hout, List.countP_append, countP_epilogue_isAudiostart]
    all_goals omega
  have t2 : (startOnce cfg events).out.countP Dispatched.isAudioend =
      (runLoop cfg initialLoopState events).out.countP Dispatched.isAudioend +
        flagNat (runLoop cfg initialLoopState events).state.audioStarted := by
    rw [hout, List.countP_append, countP_epilogue_isAudioend]
    all_goals omega
  have t3 : (startOnce cfg events).out.countP Dispatched.isSoundstart =
      (runLoop cfg initialLoopState events).out.countP Dispatched.isSoundstart := by
    rw [hout, List.countP_append, countP_epilogue_isSoundstart]
    all_goals omega
  have t4 : (startOnce cfg events).out.countP Dispatched.isSoundend =
      (runLoop cfg initialLoopState events).out.countP Dispatched.isSoundend +
        flagNat (runLoop cfg initialLoopState events).state.soundStarted := by
    rw [hout, List.countP_append, countP_epilogue_isSoundend]
    all_goals omega
  have t5 : (startOnce cfg events).out.countP Dispatched.isSpeechstart =
      (runLoop cfg initialLoopState events).out.countP Dispatched.isSpeechstart := by
    rw [hout, List.countP_append, countP_epilogue_isSpeechstart]
    all_goals omega
  have t6 : (startOnce cfg events).out.countP Dispatched.isSpeechend =
      (runLoop cfg initialLoopState events).out.countP Dispatched.isSpeechend +
        flagNat (runLoop cfg initialLoopState events).state.speechStarted := by
    rw [hout, List.countP_append, countP_epilogue_isSpeechend]
    all_goals omega
  refine ⟨by omega, by omega, by omega, ?_, ?_, ?_⟩
  · rw [mem_iff_countP_pos Dispatched.audiostart Dispatched.isAudiostart _ isAudiostart_iff,
      mem_iff_countP_pos Dispatched.audioend Dispatched.isAudioend _ isAudioend_iff]
    omega
  · rw [mem_iff_countP_pos Dispatched.soundstart Dispatched.isSoundstart _ isSoundstart_iff,
      mem_iff_countP_pos Dispatched.soundend Dispatched.isSoundend _ isSoundend_iff]
    omega
  · rw [mem_iff_countP_pos Dispatched.speechstart Dispatched.isSpeechstart _ isSpeechstart_iff,
      mem_iff_countP_pos Dispatched.speechend Dispatched.isSpeechend _ isSpeechend_iff]
    omega

/-- C2 (amended) witness. -/
theorem c2_amended_witness :
    (wellFormedQueue false false false [QueueEvent.audioSourceReady,
        QueueEvent.firstAudibleChunk, QueueEvent.recognized helloResult,
        QueueEvent.audioSourceOff] = true ∧
      (startOnce cfgDefault [QueueEvent.audioSourceReady, QueueEvent.firstAudibleChunk,
        QueueEvent.recognized helloResult, QueueEvent.audioSourceOff]).completed = true) ∧
    (((startOnce cfgDefault [QueueEvent.audioSourceReady, QueueEvent.firstAudibleChunk,
        QueueEvent.recognized helloResult, QueueEvent.audioSourceOff]).out.countP
        Dispatched.isAudiostart ≤ 1) ∧
      ((startOnce cfgDefault [QueueEvent.audioSourceReady, QueueEvent.firstAudibleChunk,
        QueueEvent.recognized helloResult, QueueEvent.audioSourceOff]).out.countP
        Dispatched.isSoundstart ≤ 1) ∧
      ((startOnce cfgDefault [QueueEvent.audioSourceReady, QueueEvent.firstAudibleChunk,
        QueueEvent.recognized helloResult, QueueEvent.audioSourceOff]).out.countP
        Dispatched.isSpeechstart ≤ 1) ∧
      (Dispatched.audiostart ∈ (startOnce cfgDefault [QueueEvent.audioSourceReady,
        QueueEvent.firstAudibleChunk, QueueEvent.recognized helloResult,
        QueueEvent.audioSourceOff]).out ↔
        Dispatched.audioend ∈ (startOnce cfgDefault [QueueEvent.audioSourceReady,
          QueueEvent.firstAudibleChunk, QueueEvent.recognized helloResult,
          QueueEvent.audioSourceOff]).out) ∧
      (Dispatched.soundstart ∈ (startOnce cfgDefault [QueueEvent.audioSourceReady,
        QueueEvent.firstAudibleChunk, QueueEvent.recognized helloResult,
        QueueEvent.audioSourceOff]).out ↔
        Dispatched.soundend ∈ (startOnce cfgDefault [QueueEvent.audioSourceReady,
          QueueEvent.firstAudibleChunk, QueueEvent.recognized helloResult,
          QueueEvent.audioSourceOff]).out) ∧
      (Dispatched.speechstart ∈ (startOnce cfgDefault [QueueEvent.audioSourceReady,
        QueueEvent.firstAudibleChunk, QueueEvent.recognized helloResult,
        QueueEvent.audioSourceOff]).out ↔
        Dispatched.speechend ∈ (startOnce cfgDefault [QueueEvent.audioSourceReady,
          QueueEvent.firstAudibleChunk, QueueEvent.recognized helloResult,
          QueueEvent.audioSourceOff]).out)) :=
  ⟨⟨by decide, by decide⟩,
    c2_amended cfgDefault [QueueEvent.audioSourceReady, QueueEvent.firstAudibleChunk,
      QueueEvent.recognized helloResult, QueueEvent.audioSourceOff]
      (by decide) (by decide)⟩

end WebSpeech